import Mathlib

/-!
Verification of the Agrojurado chatbot core against its specification.

This file gives a shallow embedding, in Lean 4, of the parts of the
program that the specification's claims are about:

* the identity validator (`services/validation_service.py`),
* the filename identifier extractor (`routers/receipts.py`,
  `extract_cedula_from_filename`),
* the document repository over the remote FTP store with its metadata
  cache (`services/ftp_service.py`),
* the receipt service (`services/receipt_service.py`),
* the dialogue engine (`services/bot_service.py`,
  `_handle_receipt_conversation`),
* the batch delete and batch upload endpoints (`routers/receipts.py`).

Modelling conventions:

* Python strings are Lean `String`s; the Unicode digit classes used by
  the source's regexes are restricted to the ASCII digits, which are the
  only ones the data of this program contains.
* `datetime` values are modelled as whole days (`Int`) where only dates
  at midnight occur (both the stored expedition dates and the parsed
  `DD/MM/YYYY` inputs are midnight datetimes); cache timestamps are
  modelled in seconds (`Int`).
* I/O against the remote FTP store, the messaging gateway, the local
  filesystem and the clock is modelled by an explicit environment
  (`FtpEnv`) holding the outcome of each primitive operation; Python
  exceptions are modelled by `Except PyErr`.
* The module-global metadata cache is threaded explicitly as a value of
  type `Cache`.
-/

namespace Agrojurado

/-- Python exceptions relevant to the embedded code: `ConnectionError`,
`ftplib.error_perm` (whose message may start with an FTP status code such
as `550`), `ValueError`, and any other exception. -/
inductive PyErr where
  | connError (msg : String)
  | permError (msg : String)
  | valueError (msg : String)
  | otherError (msg : String)
deriving Repr, DecidableEq

/-- The message text carried by an exception (`str(e)` in the source). -/
def PyErr.text : PyErr → String
  | .connError m => m
  | .permError m => m
  | .valueError m => m
  | .otherError m => m

/-- Lowercasing of one character as Python's `str.lower` does it,
restricted to ASCII letters plus the accented letters that occur in this
program's messages and keywords. -/
def pyLowerChar (c : Char) : Char :=
  if 'A' ≤ c ∧ c ≤ 'Z' then Char.ofNat (c.toNat + 32)
  else if c = 'Á' then 'á'
  else if c = 'É' then 'é'
  else if c = 'Í' then 'í'
  else if c = 'Ó' then 'ó'
  else if c = 'Ú' then 'ú'
  else if c = 'Ñ' then 'ñ'
  else if c = 'Ü' then 'ü'
  else c

/-- Python `str.lower()`. -/
def pyLower (s : String) : String :=
  String.mk (s.toList.map pyLowerChar)

/-- Python `str.strip()` with no argument: remove whitespace from both
ends. -/
def pyStrip (s : String) : String :=
  String.mk (((s.toList.dropWhile Char.isWhitespace).reverse.dropWhile
    Char.isWhitespace).reverse)

/-- Python `str.isdigit()` on the strings this program feeds it:
non-empty and consisting of digits only. -/
def pyIsDigitStr (s : String) : Bool :=
  !s.toList.isEmpty && s.toList.all Char.isDigit

/-- Numeric value of a digit string (`int(s)` in the source, which is
only applied to matches of `\d+`). -/
def strToNat (s : String) : Nat :=
  s.toList.foldl (fun n c => 10 * n + (c.toNat - '0'.toNat)) 0

/-- Auxiliary for `digitRuns`: `acc` holds the digits of the current run
in reverse order. -/
def digitRunsAux : List Char → List Char → List String
  | [], acc => if acc.isEmpty then [] else [String.mk acc.reverse]
  | c :: cs, acc =>
    if c.isDigit then digitRunsAux cs (c :: acc)
    else if acc.isEmpty then digitRunsAux cs []
    else String.mk acc.reverse :: digitRunsAux cs []

/-- All maximal digit runs of a string, in order: Python's
`re.findall(r'\d+', s)`. -/
def digitRuns (s : String) : List String :=
  digitRunsAux s.toList []

/-- Auxiliary for `pyRemoveAll`: removes every occurrence of the pattern
`p :: ps`, scanning left to right without rescanning the produced text,
exactly as Python's `str.replace(pat, '')`. Structural recursion on a
fuel argument (the input's length suffices, since each step consumes at
least one character) keeps the definition kernel-reducible. -/
def pyRemoveAllAux (p : Char) (ps : List Char) : Nat → List Char → List Char
  | 0, l => l
  | _ + 1, [] => []
  | fuel + 1, c :: cs =>
    if (p :: ps).isPrefixOf (c :: cs) then pyRemoveAllAux p ps fuel (cs.drop ps.length)
    else c :: pyRemoveAllAux p ps fuel cs

/-- Python `s.replace(pat, '')` for a non-empty pattern. -/
def pyRemoveAll (pat : String) (s : String) : String :=
  match pat.toList with
  | [] => s
  | p :: ps => String.mk (pyRemoveAllAux p ps s.toList.length s.toList)

/-- Auxiliary for `pySplitOnce`. -/
def pySplitOnceAux (sep : Char) (acc : List Char) : List Char → Option (String × String)
  | [] => none
  | c :: cs =>
    if c = sep then some (String.mk acc.reverse, String.mk cs)
    else pySplitOnceAux sep (c :: acc) cs

/-- Python `s.split(sep, 1)` matched together with the `sep in s` guard:
`some (before, after)` when the separator occurs, split at its first
occurrence. -/
def pySplitOnce (sep : Char) (s : String) : Option (String × String) :=
  pySplitOnceAux sep [] s.toList

/-- Auxiliary for `pyIn`. -/
def pyInAux : List Char → List Char → Bool
  | pat, [] => pat.isPrefixOf []
  | pat, c :: cs => pat.isPrefixOf (c :: cs) || pyInAux pat cs

/-- Python's substring test `needle in hay`. -/
def pyIn (needle hay : String) : Bool :=
  pyInAux needle.toList hay.toList

/-- Python `os.path.basename`: the part after the last slash. -/
def pyBasename (s : String) : String :=
  String.mk ((s.toList.reverse.takeWhile (fun c => c ≠ '/')).reverse)

/-- Python `str.startswith` (kernel-reducible form of
`String.startsWith`). -/
def pyStartsWith (pre s : String) : Bool :=
  pre.toList.isPrefixOf s.toList

/-- Python `str.endswith` (kernel-reducible form of `String.endsWith`). -/
def pyEndsWith (suf s : String) : Bool :=
  suf.toList.isSuffixOf s.toList

/-- Auxiliary for `splitDropEmpty`, mirroring `pySplitWsAux` with an
arbitrary separator. -/
def splitSepAux (sep : Char) : List Char → List Char → List String
  | [], acc => if acc.isEmpty then [] else [String.mk acc.reverse]
  | c :: cs, acc =>
    if c = sep then
      if acc.isEmpty then splitSepAux sep cs []
      else String.mk acc.reverse :: splitSepAux sep cs []
    else splitSepAux sep cs (c :: acc)

/-- Split at a separator character, dropping empty parts — the
combination `[p for p in s.split('/') if p]` used by `_ensure_dirs`. -/
def splitDropEmpty (sep : Char) (s : String) : List String :=
  splitSepAux sep s.toList []

/-- Auxiliary for `pySplitWs`, mirroring `digitRunsAux` with
non-whitespace runs. -/
def pySplitWsAux : List Char → List Char → List String
  | [], acc => if acc.isEmpty then [] else [String.mk acc.reverse]
  | c :: cs, acc =>
    if c.isWhitespace then
      if acc.isEmpty then pySplitWsAux cs []
      else String.mk acc.reverse :: pySplitWsAux cs []
    else pySplitWsAux cs (c :: acc)

/-- Python `str.split()` with no argument: whitespace-separated fields,
empty fields dropped. -/
def pySplitWs (s : String) : List String :=
  pySplitWsAux s.toList []

/-- Python `str.strip('/')`. -/
def pyStripSlashes (s : String) : String :=
  String.mk (((s.toList.dropWhile (· = '/')).reverse.dropWhile (· = '/')).reverse)

/-- Python `str.rstrip('/')`. -/
def pyRStripSlashes (s : String) : String :=
  String.mk ((s.toList.reverse.dropWhile (· = '/')).reverse)

/-- Lexicographic comparison of character lists by code point, the order
Python uses when comparing strings. -/
def lexLeChars : List Char → List Char → Bool
  | [], _ => true
  | _ :: _, [] => false
  | a :: as, b :: bs => if a < b then true else if a = b then lexLeChars as bs else false

/-- Python `list.sort()` on strings: stable sort in code-point order
(`List.insertionSort` is stable). -/
def pySortStrings (l : List String) : List String :=
  l.insertionSort (fun a b => lexLeChars a.data b.data = true)

/-- The "longer or equal" relation underlying Python's
`sorted(l, key=len, reverse=True)`. -/
def lenGe (a b : String) : Prop :=
  b.length ≤ a.length

instance : DecidableRel lenGe := fun a b => Nat.decLe b.length a.length

instance : IsTotal String lenGe :=
  ⟨fun a b => (Nat.le_total b.length a.length).imp id id⟩

instance : IsTrans String lenGe :=
  ⟨fun _ _ _ h1 h2 => Nat.le_trans h2 h1⟩

/-- Python `sorted(l, key=len, reverse=True)`: stable sort, longest
first. -/
def pySortByLenDesc (l : List String) : List String :=
  l.insertionSort lenGe

/-- Python `max(l, key=len)` on a non-empty list: the first element of
maximal length; dummy value on the empty list (the source only applies
it to non-empty lists). -/
def pyMaxByLen (l : List String) : String :=
  match l with
  | [] => ""
  | x :: xs => xs.foldl (fun acc y => if y.length > acc.length then y else acc) x

/-- Registered user row (`PaymentUser` in `models/payment_models.py`):
key fields used by the core. `expedition_date` is a midnight datetime,
modelled in whole days. -/
structure PaymentUser where
  cedula : String
  name : String
  expedition_date : Int
  is_active : Bool
deriving Repr, DecidableEq

/-- Embedding of `ValidationService.validate_cedula_format`
(`services/validation_service.py`): strip every non-digit character and
require the remainder to be a non-empty digit string. -/
def validate_cedula_format (cedula : String) : Bool × String :=
  let cedula_clean := String.mk (cedula.toList.filter Char.isDigit)
  if !pyIsDigitStr cedula_clean then (false, "La cédula solo debe contener números")
  else (true, "Cédula válida")

/-- Match of the source's regex `^(\d{1,2})/(\d{1,2})/(\d{4})$` (with
`re.match`, whose `$` also accepts one trailing newline), returning
`(day, month, year)`. -/
def matchDateRegex (s : String) : Option (Nat × Nat × Nat) :=
  let cs := s.toList
  let dPart := cs.takeWhile Char.isDigit
  let rest₁ := cs.dropWhile Char.isDigit
  if dPart.length < 1 ∨ dPart.length > 2 then none
  else match rest₁ with
    | '/' :: rest₂ =>
      let mPart := rest₂.takeWhile Char.isDigit
      let rest₃ := rest₂.dropWhile Char.isDigit
      if mPart.length < 1 ∨ mPart.length > 2 then none
      else match rest₃ with
        | '/' :: rest₄ =>
          let yPart := rest₄.takeWhile Char.isDigit
          let rest₅ := rest₄.dropWhile Char.isDigit
          if yPart.length ≠ 4 then none
          else if rest₅ = [] ∨ rest₅ = ['\n'] then
            some (strToNat (String.mk dPart), strToNat (String.mk mPart),
              strToNat (String.mk yPart))
          else none
        | _ => none
    | _ => none

/-- Embedding of `ValidationService.validate_date_format`
(`services/validation_service.py`). `current_year` stands for
`datetime.now().year`. The final `datetime(year, month, day)` call of the
source cannot raise once the preceding range checks have passed, so the
success branch returns the parsed triple directly. -/
def validate_date_format (current_year : Nat) (date_str : String) :
    Bool × String × Option (Nat × Nat × Nat) :=
  match matchDateRegex date_str with
  | none => (false, "El formato debe ser DD/MM/AAAA (ejemplo: 15/03/1990)", none)
  | some (day, month, year) =>
    if year < 1900 ∨ year > current_year then
      (false, "El año debe estar entre 1900 y " ++ toString current_year, none)
    else if month < 1 ∨ month > 12 then
      (false, "El mes debe estar entre 1 y 12", none)
    else if day < 1 ∨ day > 31 then
      (false, "El día debe estar entre 1 y 31", none)
    else
      let feb : Nat :=
        if month = 2 ∧ year % 4 = 0 ∧ (year % 100 ≠ 0 ∨ year % 400 = 0) then 29 else 28
      let days_in_month : List Nat := [31, feb, 31, 30, 31, 30, 31, 31, 30, 31, 30, 31]
      if day > days_in_month.getD (month - 1) 0 then
        (false, "El día " ++ toString day ++ " no es válido para el mes " ++ toString month, none)
      else
        (true, "Fecha válida", some (day, month, year))

/-- Embedding of `ValidationService.validate_user_data`
(`services/validation_service.py`): first active user with the given
cedula; tolerance of one day (`abs(stored - supplied) > timedelta(days=1)`
fails) on the expedition date. -/
def validate_user_data (db : List PaymentUser) (cedula : String)
    (expedition_date : Int) : Bool × String × Option PaymentUser :=
  match db.find? (fun u => u.cedula == cedula && u.is_active) with
  | none => (false, "No se encontró un usuario registrado con esa cédula", none)
  | some user =>
    if (user.expedition_date - expedition_date).natAbs > 1 then
      (false, "La fecha de expedición no coincide con nuestros registros", none)
    else
      (true, "Datos válidos", some user)

/-- Embedding of `ValidationService.is_cedula_registered`
(`services/validation_service.py`). -/
def is_cedula_registered (db : List PaymentUser) (cedula : String) :
    Bool × String × Option PaymentUser :=
  match db.find? (fun u => u.cedula == cedula && u.is_active) with
  | some user => (true, "Usuario registrado: " ++ user.name, some user)
  | none => (false, "La cédula no existe en nuestros registros", none)

/-- Embedding of the "looks like a timestamp (YYYYMMDD format)" test in
`extract_cedula_from_filename` (`routers/receipts.py`): exactly 8 digits
with year in 1900–2100, month in 1–12 and day in 1–31 (the source checks
only `1 <= day <= 31`, with no per-month calendar check; the
`try`/`except` around the slicing cannot fire on a digit run). -/
def looksLikeTimestampYMD (number : String) : Bool :=
  number.length = 8 && pyIsDigitStr number &&
    (let year := strToNat (String.mk (number.toList.take 4))
     let month := strToNat (String.mk ((number.toList.drop 4).take 2))
     let day := strToNat (String.mk ((number.toList.drop 6).take 2))
     1900 ≤ year && year ≤ 2100 && 1 ≤ month && month ≤ 12 && 1 ≤ day && day ≤ 31)

/-- Embedding of the "looks like a time (HHMMSS format)" test in
`extract_cedula_from_filename` (`routers/receipts.py`). -/
def looksLikeTimeHMS (number : String) : Bool :=
  number.length = 6 && pyIsDigitStr number &&
    (let hour := strToNat (String.mk (number.toList.take 2))
     let minute := strToNat (String.mk ((number.toList.drop 2).take 2))
     let second := strToNat (String.mk ((number.toList.drop 4).take 2))
     hour ≤ 23 && minute ≤ 59 && second ≤ 59)

/-- A digit run is skipped by the filter loop of
`extract_cedula_from_filename` when any of its `continue` conditions
holds: timestamp-like, time-like, shorter than 6 or longer than 12. -/
def isSkippedRun (number : String) : Bool :=
  looksLikeTimestampYMD number || looksLikeTimeHMS number ||
    number.length < 6 || number.length > 12

/-- The selection step of `extract_cedula_from_filename`
(`routers/receipts.py`): the first run of length 8–10 in the stable
longest-first ordering (the `for cedula in sorted(...)` loop), or else
the first longest remaining run (`max(valid_cedulas, key=len)`). -/
def extract_cedula_select (valid_cedulas : List String) : String :=
  match (pySortByLenDesc valid_cedulas).find?
      (fun c => 8 ≤ c.length && c.length ≤ 10) with
  | some c => c
  | none => pyMaxByLen valid_cedulas

/-- Embedding of `extract_cedula_from_filename` (`routers/receipts.py`),
continued: drop every `.pdf` / `.PDF` occurrence, collect the maximal
digit runs, filter out skipped runs, then select via
`extract_cedula_select`, or return `"N/A"` when nothing remains. -/
def extract_cedula_from_filename (filename : String) : String :=
  let name_without_ext := pyRemoveAll ".PDF" (pyRemoveAll ".pdf" filename)
  let numbers := digitRuns name_without_ext
  if numbers.isEmpty then "N/A"
  else
    let valid_cedulas := numbers.filter (fun n => !isSkippedRun n)
    if valid_cedulas.isEmpty then "N/A"
    else extract_cedula_select valid_cedulas

/-- Gregorian leap-year rule, as the specification states it. -/
def isLeapYear (y : Nat) : Bool :=
  y % 4 = 0 && (y % 100 ≠ 0 || y % 400 = 0)

/-- Number of days of a month under the Gregorian calendar, as the
specification states it ("day valid for that month"). -/
def specDaysInMonth (y m : Nat) : Nat :=
  if m = 2 then (if isLeapYear y then 29 else 28)
  else if m = 4 ∨ m = 6 ∨ m = 9 ∨ m = 11 then 30
  else 31

/-- Modelled from the spec: the discard rule of the specification's
reference algorithm for the Filename Identifier Extractor — a run is
discarded iff it is an 8-digit calendar-valid `YYYYMMDD` (year
1900–2100, month 1–12, day valid for that month), a 6-digit valid
`HHMMSS`, or of length below 6 or above 12. -/
def specReferenceDiscards (r : String) : Bool :=
  (r.length = 8 &&
    (let year := strToNat (String.mk (r.toList.take 4))
     let month := strToNat (String.mk ((r.toList.drop 4).take 2))
     let day := strToNat (String.mk ((r.toList.drop 6).take 2))
     1900 ≤ year && year ≤ 2100 && 1 ≤ month && month ≤ 12 &&
       1 ≤ day && day ≤ specDaysInMonth year month)) ||
  (r.length = 6 &&
    (let hour := strToNat (String.mk (r.toList.take 2))
     let minute := strToNat (String.mk ((r.toList.drop 2).take 2))
     let second := strToNat (String.mk ((r.toList.drop 4).take 2))
     hour ≤ 23 && minute ≤ 59 && second ≤ 59)) ||
  r.length < 6 || r.length > 12

/-- Modelled from the spec: the specification's reference algorithm for
the Filename Identifier Extractor as claim C2 states it — maximal digit
runs of the filename, discard per `specReferenceDiscards`, then prefer
the longest remaining run of length 8–10, else the overall longest
remaining run, else `"N/A"` (ties broken towards the earlier run, which
the specification leaves open). -/
def spec_reference_extract (filename : String) : String :=
  let remaining := (digitRuns filename).filter (fun r => !specReferenceDiscards r)
  if remaining.isEmpty then "N/A"
  else
    match (pySortByLenDesc remaining).find?
        (fun c => 8 ≤ c.length && c.length ≤ 10) with
    | some c => c
    | none => pyMaxByLen remaining

/-- The amended discard rule, following the source: like the
specification's rule but with the day only required to lie in 1–31 (no
per-month calendar check), stated directly on the digits of the run. -/
def amendedDiscardsRun (r : String) : Bool :=
  (r.length = 8 &&
    (let year := strToNat (String.mk (r.toList.take 4))
     let month := strToNat (String.mk ((r.toList.drop 4).take 2))
     let day := strToNat (String.mk ((r.toList.drop 6).take 2))
     1900 ≤ year && year ≤ 2100 && 1 ≤ month && month ≤ 12 && 1 ≤ day && day ≤ 31)) ||
  (r.length = 6 &&
    (let hour := strToNat (String.mk (r.toList.take 2))
     let minute := strToNat (String.mk ((r.toList.drop 2).take 2))
     let second := strToNat (String.mk ((r.toList.drop 4).take 2))
     hour ≤ 23 && minute ≤ 59 && second ≤ 59)) ||
  r.length < 6 || r.length > 12

/-- The candidate runs of the amended reference algorithm: maximal digit
runs of the filename after deleting each `.pdf` / `.PDF` occurrence,
with the amended discard rule applied. -/
def amended_reference_candidates (filename : String) : List String :=
  (digitRuns (pyRemoveAll ".PDF" (pyRemoveAll ".pdf" filename))).filter
    (fun r => !amendedDiscardsRun r)

/-- Every string emitted by `digitRunsAux` from an all-digit accumulator
is a non-empty all-digit string. -/
theorem digitRunsAux_all_digit :
    ∀ (cs acc : List Char), (∀ c ∈ acc, c.isDigit = true) →
      ∀ r ∈ digitRunsAux cs acc, r.toList.all Char.isDigit = true ∧ r.toList ≠ [] := by
  intro cs
  induction cs with
  | nil =>
    intro acc hacc r hr
    by_cases h : acc.isEmpty
    · simp [digitRunsAux, h] at hr
    · simp [digitRunsAux, h] at hr
      subst hr
      refine ⟨?_, ?_⟩
      · rw [List.all_eq_true]
        intro c hc
        exact hacc c (List.mem_reverse.mp hc)
      · simp only [String.toList, ne_eq, List.reverse_eq_nil_iff]
        intro hnil
        rw [hnil] at h
        exact h rfl
  | cons c cs ih =>
    intro acc hacc r hr
    simp only [digitRunsAux] at hr
    by_cases hd : c.isDigit
    · rw [if_pos hd] at hr
      refine ih (c :: acc) ?_ r hr
      intro x hx
      rcases List.mem_cons.mp hx with h | h
      · subst h; exact hd
      · exact hacc x h
    · rw [if_neg hd] at hr
      by_cases he : acc.isEmpty
      · rw [if_pos he] at hr
        exact ih [] (by simp) r hr
      · rw [if_neg he] at hr
        rcases List.mem_cons.mp hr with h | h
        · subst h
          refine ⟨?_, ?_⟩
          · rw [List.all_eq_true]
            intro x hx
            exact hacc x (List.mem_reverse.mp hx)
          · simp only [String.toList, ne_eq, List.reverse_eq_nil_iff]
            intro hnil
            rw [hnil] at he
            exact he rfl
        · exact ih [] (by simp) r h

/-- On a non-empty all-digit string, the source's skip test agrees with
the amended discard rule (the extra `number.isdigit()` conjunct of the
source is redundant on digit runs). -/
theorem isSkipped_eq_amended (r : String) (h1 : r.toList.all Char.isDigit = true)
    (h2 : r.toList ≠ []) : isSkippedRun r = amendedDiscardsRun r := by
  have hd : pyIsDigitStr r = true := by
    simp only [pyIsDigitStr, Bool.and_eq_true, Bool.not_eq_true']
    exact ⟨by simpa [List.isEmpty_iff] using h2, h1⟩
  simp [isSkippedRun, amendedDiscardsRun, looksLikeTimestampYMD, looksLikeTimeHMS, hd]

/-- In a list that is pairwise sorted longest-first, the first element
satisfying `p` is at least as long as every element satisfying `p`. -/
theorem find?_pairwise_len_max {p : String → Bool} :
    ∀ {l : List String}, l.Pairwise lenGe → ∀ {c : String}, l.find? p = some c →
      ∀ x ∈ l, p x = true → x.length ≤ c.length := by
  intro l hl
  induction hl with
  | nil =>
    intro c hc
    simp [List.find?] at hc
  | @cons a l' ha _ ih =>
    intro c hc x hx hpx
    by_cases hpa : p a = true
    · rw [List.find?_cons_of_pos _ hpa] at hc
      have hac : a = c := by injection hc
      subst hac
      rcases List.mem_cons.mp hx with h | h
      · subst h; exact Nat.le_refl _
      · exact ha x h
    · rw [List.find?_cons_of_neg _ (by simpa using hpa)] at hc
      rcases List.mem_cons.mp hx with h | h
      · subst h; exact absurd hpx hpa
      · exact ih hc x h hpx

/-- The fold inside `pyMaxByLen` yields either the accumulator or a list
element, and its length dominates both the accumulator's and every
element's. -/
theorem foldl_len_max (xs : List String) :
    ∀ acc : String,
      ((xs.foldl (fun a y => if y.length > a.length then y else a) acc) = acc ∨
        (xs.foldl (fun a y => if y.length > a.length then y else a) acc) ∈ xs) ∧
      acc.length ≤ (xs.foldl (fun a y => if y.length > a.length then y else a) acc).length ∧
      ∀ y ∈ xs, y.length ≤ (xs.foldl (fun a y => if y.length > a.length then y else a) acc).length := by
  induction xs with
  | nil => simp
  | cons x xs ih =>
    intro acc
    simp only [List.foldl_cons]
    obtain ⟨hmem, hacc, hall⟩ := ih (if x.length > acc.length then x else acc)
    have hstep : acc.length ≤ (if x.length > acc.length then x else acc).length := by
      split <;> omega
    have hstepx : x.length ≤ (if x.length > acc.length then x else acc).length := by
      split <;> omega
    refine ⟨?_, Nat.le_trans hstep hacc, ?_⟩
    · rcases hmem with h | h
      · rw [h]
        split
        · exact Or.inr (List.mem_cons_self _ _)
        · exact Or.inl rfl
      · exact Or.inr (List.mem_cons_of_mem _ h)
    · intro y hy
      rcases List.mem_cons.mp hy with h | h
      · subst h; exact Nat.le_trans hstepx hacc
      · exact hall y h

/-- On a non-empty list, `pyMaxByLen` returns a member of maximal
length. -/
theorem pyMaxByLen_spec :
    ∀ (l : List String), l ≠ [] →
      pyMaxByLen l ∈ l ∧ ∀ x ∈ l, x.length ≤ (pyMaxByLen l).length := by
  intro l hl
  match l with
  | [] => exact absurd rfl hl
  | x :: xs =>
    obtain ⟨hmem, hacc, hall⟩ := foldl_len_max xs x
    refine ⟨?_, ?_⟩
    · simp only [pyMaxByLen]
      rcases hmem with h | h
      · rw [h]; exact List.mem_cons_self _ _
      · exact List.mem_cons_of_mem _ h
    · intro y hy
      simp only [pyMaxByLen]
      rcases List.mem_cons.mp hy with h | h
      · subst h; exact hacc
      · exact hall y h

/-- Characterization of the selection step: on a non-empty candidate
list it returns a member; the member has length 8–10 and maximal such
length when a length-8–10 candidate exists, and maximal overall length
otherwise. -/
theorem extract_cedula_select_spec (l : List String) (hl : l ≠ []) :
    extract_cedula_select l ∈ l ∧
    ((∃ x ∈ l, 8 ≤ x.length ∧ x.length ≤ 10) →
      8 ≤ (extract_cedula_select l).length ∧ (extract_cedula_select l).length ≤ 10 ∧
        ∀ x ∈ l, 8 ≤ x.length → x.length ≤ 10 →
          x.length ≤ (extract_cedula_select l).length) ∧
    ((∀ x ∈ l, ¬(8 ≤ x.length ∧ x.length ≤ 10)) →
      ∀ x ∈ l, x.length ≤ (extract_cedula_select l).length) := by
  have hperm : List.Perm (l.insertionSort lenGe) l := List.perm_insertionSort lenGe l
  have hsorted : (l.insertionSort lenGe).Pairwise lenGe := List.sorted_insertionSort lenGe l
  cases hfind : (pySortByLenDesc l).find? (fun c => 8 ≤ c.length && c.length ≤ 10) with
  | some c =>
    have hresult : extract_cedula_select l = c := by
      simp [extract_cedula_select, hfind]
    have hc_mem : c ∈ l :=
      hperm.mem_iff.mp (List.mem_of_find?_eq_some hfind)
    have hc_p : 8 ≤ c.length ∧ c.length ≤ 10 := by
      have := List.find?_some hfind
      simpa using this
    have hmax : ∀ x ∈ l.insertionSort lenGe,
        (fun c => 8 ≤ c.length && c.length ≤ 10) x = true → x.length ≤ c.length :=
      find?_pairwise_len_max hsorted hfind
    rw [hresult]
    refine ⟨hc_mem, ?_, ?_⟩
    · intro _
      refine ⟨hc_p.1, hc_p.2, ?_⟩
      intro x hx h8 h10
      exact hmax x (hperm.mem_iff.mpr hx) (by simp [h8, h10])
    · intro hnone
      exact absurd hc_p (hnone c hc_mem)
  | none =>
    have hresult : extract_cedula_select l = pyMaxByLen l := by
      simp [extract_cedula_select, hfind]
    have hnone := List.find?_eq_none.mp hfind
    obtain ⟨hmem, hall⟩ := pyMaxByLen_spec l hl
    rw [hresult]
    refine ⟨hmem, ?_, fun _ => hall⟩
    intro ⟨x, hx, h8, h10⟩
    have := hnone x (hperm.mem_iff.mpr hx)
    simp [h8, h10] at this

/-- Claim C2, counterexample: the extractor does not implement the
specification's reference algorithm. On the filename `20230231.pdf` the
single digit run `20230231` is not a calendar-valid date (February has
no day 31), so the reference algorithm keeps it and returns it, but the
source discards any 8-digit run whose day part merely lies in 1–31 and
returns `N/A`. -/
theorem C2_spec_reference_counterexample :
    extract_cedula_from_filename "20230231.pdf" = "N/A" ∧
    spec_reference_extract "20230231.pdf" = "20230231" ∧
    "N/A" ≠ "20230231" := by
  refine ⟨by rfl, by rfl, by decide⟩

/-- Claim C2 (amended): for every filename, `extract_cedula_from_filename`
behaves as the specification's reference algorithm with two corrections
forced by the source: (1) digit runs are taken after deleting every
`.pdf` / `.PDF` occurrence from the filename, and (2) an exactly-8-digit
run is discarded when year ∈ [1900, 2100], month ∈ [1, 12] and day ∈
[1, 31] — with no per-month calendar validity check, so `20230231` is
discarded. Among the remaining runs the result is a run of maximal
length among those of length in [8, 10] when one exists, otherwise a run
of maximal length, otherwise `"N/A"`. -/
theorem C2_extract_cedula_amended (filename : String) :
    (amended_reference_candidates filename = [] →
      extract_cedula_from_filename filename = "N/A") ∧
    (amended_reference_candidates filename ≠ [] →
      extract_cedula_from_filename filename ∈ amended_reference_candidates filename ∧
      ((∃ x ∈ amended_reference_candidates filename, 8 ≤ x.length ∧ x.length ≤ 10) →
        8 ≤ (extract_cedula_from_filename filename).length ∧
          (extract_cedula_from_filename filename).length ≤ 10 ∧
          ∀ x ∈ amended_reference_candidates filename,
            8 ≤ x.length → x.length ≤ 10 →
              x.length ≤ (extract_cedula_from_filename filename).length) ∧
      ((∀ x ∈ amended_reference_candidates filename, ¬(8 ≤ x.length ∧ x.length ≤ 10)) →
        ∀ x ∈ amended_reference_candidates filename,
          x.length ≤ (extract_cedula_from_filename filename).length)) := by
  have hfilter :
      (digitRuns (pyRemoveAll ".PDF" (pyRemoveAll ".pdf" filename))).filter
          (fun n => !isSkippedRun n) = amended_reference_candidates filename := by
    refine List.filter_congr ?_
    intro x hx
    obtain ⟨hdig, hne⟩ :=
      digitRunsAux_all_digit (pyRemoveAll ".PDF" (pyRemoveAll ".pdf" filename)).toList []
        (by simp) x hx
    rw [isSkipped_eq_amended x hdig hne]
  constructor
  · intro hempty
    simp only [extract_cedula_from_filename]
    by_cases hn : (digitRuns (pyRemoveAll ".PDF" (pyRemoveAll ".pdf" filename))).isEmpty
    · simp [hn]
    · rw [if_neg (by simpa using hn)]
      rw [hfilter, hempty]
      simp
  · intro hne
    have hvalid :
        (digitRuns (pyRemoveAll ".PDF" (pyRemoveAll ".pdf" filename))).filter
          (fun n => !isSkippedRun n) ≠ [] := by
      rw [hfilter]; exact hne
    have hnums : (digitRuns (pyRemoveAll ".PDF" (pyRemoveAll ".pdf" filename))) ≠ [] := by
      intro h
      rw [h] at hvalid
      exact hvalid rfl
    have hresult : extract_cedula_from_filename filename =
        extract_cedula_select (amended_reference_candidates filename) := by
      simp only [extract_cedula_from_filename]
      rw [if_neg (by simpa using hnums), hfilter, if_neg (by simpa using hne)]
    rw [hresult]
    exact extract_cedula_select_spec _ hne

/-- Witness for C2 (amended) at a concrete filename: the hypotheses of
the characterization are discharged at
`PAGO_1192767555_20230915_134500.pdf`, whose only surviving candidate is
the 10-digit run. -/
theorem C2_extract_cedula_amended_witness :
    amended_reference_candidates "PAGO_1192767555_20230915_134500.pdf" ≠ [] ∧
    extract_cedula_from_filename "PAGO_1192767555_20230915_134500.pdf" ∈
      amended_reference_candidates "PAGO_1192767555_20230915_134500.pdf" :=
  ⟨by decide,
    ((C2_extract_cedula_amended "PAGO_1192767555_20230915_134500.pdf").2 (by decide)).1⟩

/-- The day table of `validate_date_format` agrees with the Gregorian
per-month day count for months 1–12. -/
theorem days_in_month_eq_spec (y m : Nat) (h1 : 1 ≤ m) (h2 : m ≤ 12) :
    ([31, (if m = 2 ∧ y % 4 = 0 ∧ (y % 100 ≠ 0 ∨ y % 400 = 0) then 29 else 28 : Nat),
      31, 30, 31, 30, 31, 31, 30, 31, 30, 31] : List Nat).getD (m - 1) 0 =
      specDaysInMonth y m := by
  interval_cases m <;>
    simp only [specDaysInMonth, isLeapYear, List.getD] <;>
    split_ifs <;> simp_all

/-- Claim C5: `validate_date_format` accepts a string exactly when it
matches the source's `DD/MM/YYYY` regex (`^(\d{1,2})/(\d{1,2})/(\d{4})$`)
with year in `[1900, current_year]`, month in `[1, 12]` and day valid for
that month under the Gregorian leap-year rule; in particular (for any
current year at least 2001) it rejects `30/02/2001`, accepts
`29/02/2000` and rejects `29/02/1900`. -/
theorem C5_validate_date_format_spec (current_year : Nat) (date_str : String) :
    ((validate_date_format current_year date_str).1 = true ↔
      ∃ d m y, matchDateRegex date_str = some (d, m, y) ∧
        1900 ≤ y ∧ y ≤ current_year ∧ 1 ≤ m ∧ m ≤ 12 ∧
        1 ≤ d ∧ d ≤ specDaysInMonth y m) ∧
    (2001 ≤ current_year →
      (validate_date_format current_year "30/02/2001").1 = false ∧
      (validate_date_format current_year "29/02/2000").1 = true ∧
      (validate_date_format current_year "29/02/1900").1 = false) := by
  constructor
  · cases hm : matchDateRegex date_str with
    | none => simp [validate_date_format, hm]
    | some t =>
      obtain ⟨d, m, y⟩ := t
      simp only [validate_date_format, hm]
      constructor
      · intro h
        by_cases h1 : y < 1900 ∨ y > current_year
        · rw [if_pos h1] at h; simp at h
        · rw [if_neg h1] at h
          by_cases h2 : m < 1 ∨ m > 12
          · rw [if_pos h2] at h; simp at h
          · rw [if_neg h2] at h
            by_cases h3 : d < 1 ∨ d > 31
            · rw [if_pos h3] at h; simp at h
            · rw [if_neg h3] at h
              push_neg at h1 h2 h3
              by_cases h4 : d > ([31,
                  (if m = 2 ∧ y % 4 = 0 ∧ (y % 100 ≠ 0 ∨ y % 400 = 0) then 29 else 28 : Nat),
                  31, 30, 31, 30, 31, 31, 30, 31, 30, 31] : List Nat).getD (m - 1) 0
              · rw [if_pos h4] at h; simp at h
              · rw [days_in_month_eq_spec y m (by omega) (by omega)] at h4
                exact ⟨d, m, y, rfl, by omega, by omega, by omega, by omega, by omega,
                  by omega⟩
      · rintro ⟨d', m', y', heq, hy1, hy2, hm1, hm2, hd1, hd2⟩
        have hd' : d = d' := by injection heq with h'; injection h'
        have hmy : m = m' ∧ y = y' := by
          injection heq with h'
          injection h' with a b
          injection b with c e
          exact ⟨c, e⟩
        obtain ⟨hm', hy'⟩ := hmy
        subst hd'; subst hm'; subst hy'
        have hspec31 : specDaysInMonth y m ≤ 31 := by
          simp only [specDaysInMonth]
          split_ifs <;> omega
        rw [if_neg (by omega : ¬(y < 1900 ∨ y > current_year)),
          if_neg (by omega : ¬(m < 1 ∨ m > 12)),
          if_neg (by omega : ¬(d < 1 ∨ d > 31)),
          days_in_month_eq_spec y m (by omega) (by omega),
          if_neg (by omega : ¬d > specDaysInMonth y m)]
  · intro hcy
    have e1 : matchDateRegex "30/02/2001" = some (30, 2, 2001) := by rfl
    have e2 : matchDateRegex "29/02/2000" = some (29, 2, 2000) := by rfl
    have e3 : matchDateRegex "29/02/1900" = some (29, 2, 1900) := by rfl
    refine ⟨?_, ?_, ?_⟩
    · simp only [validate_date_format, e1]
      rw [if_neg (by omega : ¬(2001 < 1900 ∨ 2001 > current_year))]
      decide
    · simp only [validate_date_format, e2]
      rw [if_neg (by omega : ¬(2000 < 1900 ∨ 2000 > current_year))]
      decide
    · simp only [validate_date_format, e3]
      rw [if_neg (by omega : ¬(1900 < 1900 ∨ 1900 > current_year))]
      decide

/-- Witness for C5 at the concrete current year 2025: the three example
dates of the claim evaluate as stated. -/
theorem C5_validate_date_format_witness :
    (validate_date_format 2025 "30/02/2001").1 = false ∧
    (validate_date_format 2025 "29/02/2000").1 = true ∧
    (validate_date_format 2025 "29/02/1900").1 = false :=
  (C5_validate_date_format_spec 2025 "29/02/2000").2 (by omega)

/-- Claim C3: `validate_user_data` succeeds exactly when the lookup of an
active registered user by cedula succeeds and the absolute difference
between the stored and the supplied expedition date is at most one day;
in particular it succeeds at the stored date and at the stored date plus
or minus one day, fails at plus or minus two days, and fails when no
active user with that cedula exists. -/
theorem C3_validate_user_data_spec (db : List PaymentUser) (ced : String) (d : Int) :
    ((validate_user_data db ced d).1 = true ↔
      ∃ u, db.find? (fun v => v.cedula == ced && v.is_active) = some u ∧
        (u.expedition_date - d).natAbs ≤ 1) ∧
    (∀ u, db.find? (fun v => v.cedula == ced && v.is_active) = some u →
      (validate_user_data db ced u.expedition_date).1 = true ∧
      (validate_user_data db ced (u.expedition_date + 1)).1 = true ∧
      (validate_user_data db ced (u.expedition_date - 1)).1 = true ∧
      (validate_user_data db ced (u.expedition_date + 2)).1 = false ∧
      (validate_user_data db ced (u.expedition_date - 2)).1 = false) ∧
    (db.find? (fun v => v.cedula == ced && v.is_active) = none →
      (validate_user_data db ced d).1 = false) := by
  refine ⟨?_, ?_, ?_⟩
  · cases hf : db.find? (fun v => v.cedula == ced && v.is_active) with
    | none => simp [validate_user_data, hf]
    | some u =>
      simp only [validate_user_data, hf]
      split_ifs with h
      · simp only [false_iff, not_exists, not_and]
        intro v hv
        obtain rfl : u = v := by injection hv
        omega
      · simp only [true_iff]
        exact ⟨u, rfl, by omega⟩
  · intro u hu
    simp only [validate_user_data, hu]
    refine ⟨?_, ?_, ?_, ?_, ?_⟩ <;> split_ifs <;> first | rfl | omega
  · intro h
    simp [validate_user_data, h]

/-- Witness for C3 at a concrete one-user registry: the stored date plus
one day validates, plus two days does not. -/
theorem C3_validate_user_data_witness :
    (validate_user_data [⟨"1001234567", "Ana", 100, true⟩] "1001234567"
      ((100 : Int) + 1)).1 = true ∧
    (validate_user_data [⟨"1001234567", "Ana", 100, true⟩] "1001234567"
      ((100 : Int) + 2)).1 = false := by
  have h := (C3_validate_user_data_spec [⟨"1001234567", "Ana", 100, true⟩]
    "1001234567" 0).2.1 ⟨"1001234567", "Ana", 100, true⟩ (by decide)
  exact ⟨h.2.1, h.2.2.2.1⟩

/-- A parsed remote file snapshot (`services/ftp_service.py`,
`_get_files_with_metadata`): filename, size and raw date string. The
derived display-only fields of the source (`size_formatted`, which uses
floating-point formatting, and `date_iso`) are omitted; no claim
concerns them. -/
structure FileMeta where
  filename : String
  size : Nat
  date : String
deriving Repr, DecidableEq

/-- One entry of the module-global metadata cache
(`_file_metadata_cache`): the file list and the capture timestamp
(`datetime.now()` at store time, modelled in seconds). -/
structure CacheEntry where
  files : List FileMeta
  timestamp : Int
deriving Repr, DecidableEq

/-- The metadata cache, a dictionary keyed by `"metadata_" ++ subdir`. -/
abbrev Cache := List (String × CacheEntry)

/-- Python dict assignment `cache[key] = entry`: replaces any previous
binding of the key. -/
def cacheInsert (key : String) (entry : CacheEntry) (cache : Cache) : Cache :=
  (key, entry) :: cache.filter (fun kv => kv.1 ≠ key)

/-- Embedding of `clear_metadata_cache` (`services/ftp_service.py`):
drop one bucket's entry, or the whole cache. -/
def clear_metadata_cache (cache : Cache) : Option String → Cache
  | some subdir => cache.filter (fun kv => kv.1 ≠ "metadata_" ++ subdir)
  | none => []

/-- The cache TTL (`CACHE_DURATION_MINUTES` in `services/ftp_service.py`). -/
def CACHE_DURATION_MINUTES : Int := 5

/-- The environment of I/O outcomes against which the repository runs:
one field per primitive operation of the FTP client, the messaging
gateway, the local filesystem and the clock. A `Except.error` value
models the primitive raising the corresponding Python exception. -/
structure FtpEnv where
  credsOk : Bool
  baseDir : String
  publicBaseUrl : String
  connect : Except PyErr Unit
  mkd : String → Except PyErr Unit
  nlst : String → Except PyErr (List String)
  cwd : String → Except PyErr Unit
  retrLines : String → Except PyErr (List String)
  retrFile : String → Except PyErr Unit
  stor : String → Except PyErr Unit
  deleteCmd : String → Except PyErr Unit
  tempPath : String → String
  localExists : String → Bool
  nowStamp : String
  sendMessage : String → String → Bool
  sendButtons : String → String → Bool
  sendDoc : String → String → String → Bool
  uploadTry : String → Nat → Bool

/-- Embedding of the `ftp_connection` context manager
(`services/ftp_service.py`): missing credentials or any connect failure
surface as a `ConnectionError` (the source only varies the message text
by failure kind, which the model collapses). -/
def ftp_connection (env : FtpEnv) : Except PyErr Unit :=
  if !env.credsOk then .error (.connError "Faltan credenciales FTP requeridas")
  else match env.connect with
    | .ok _ => .ok ()
    | .error e => .error (.connError ("Error conectando a FTP: " ++ e.text))

/-- Embedding of `_build_remote_path` (`services/ftp_service.py`). -/
def build_remote_path (env : FtpEnv) (subdir : String) : String :=
  if env.baseDir ≠ "" then pyRStripSlashes env.baseDir ++ "/" ++ pyStripSlashes subdir
  else pyStripSlashes subdir

/-- Loop of `_ensure_dirs` (`services/ftp_service.py`): create each
directory of the chain, ignoring `550` ("already exists") permanent
errors, re-raising any other `error_perm` and letting other exceptions
propagate. -/
def ensureDirsLoop (env : FtpEnv) : List String → String → Except PyErr Unit
  | [], _ => .ok ()
  | p :: ps, current =>
    let current' := current ++ "/" ++ p
    match env.mkd current' with
    | .ok _ => ensureDirsLoop env ps current'
    | .error (.permError m) =>
      if pyStartsWith "550" m then ensureDirsLoop env ps current'
      else .error (.permError m)
    | .error e => .error e

/-- Embedding of `_ensure_dirs` (`services/ftp_service.py`). -/
def ensure_dirs (env : FtpEnv) (remote_dir : String) : Except PyErr Unit :=
  ensureDirsLoop env (splitDropEmpty '/' remote_dir) ""

/-- Embedding of `upload_file` (`services/ftp_service.py`): returns
`(public_url, remote_path)` on success and `(none, none)` when the local
file is missing, credentials are missing, or any step of the session
raises. The function never touches the metadata cache. -/
def upload_file (env : FtpEnv) (local_path remote_subdir filename : String) :
    Option String × Option String :=
  if !env.localExists local_path then (none, none)
  else if !env.credsOk then (none, none)
  else
    let remote_dir := build_remote_path env remote_subdir
    let remote_path := remote_dir ++ "/" ++ filename
    let attempt : Except PyErr Unit := do
      ftp_connection env
      ensure_dirs env remote_dir
      env.stor remote_path
    match attempt with
    | .ok _ =>
      let public_url :=
        if env.publicBaseUrl ≠ "" then
          some (pyRStripSlashes env.publicBaseUrl ++ "/" ++
            pyStripSlashes remote_subdir ++ "/" ++ filename)
        else none
      (public_url, some remote_path)
    | .error _ => (none, none)

/-- Embedding of `download_to_temp` (`services/ftp_service.py`):
materialize the remote file into a fresh temporary path, or `none` on
any failure. -/
def download_to_temp (env : FtpEnv) (remote_path : String) : Option String :=
  match ftp_connection env with
  | .error _ => none
  | .ok _ =>
    let temp_path := env.tempPath remote_path
    match env.retrFile remote_path with
    | .ok _ => some temp_path
    | .error _ => none

/-- Embedding of `delete_file` (`services/ftp_service.py`): `550` means
"not found" and yields `false`; any other `error_perm` is re-raised from
inside the first handler (so it propagates); every other exception
yields `false`. -/
def delete_file (env : FtpEnv) (remote_subdir filename : String) : Except PyErr Bool :=
  let path := build_remote_path env remote_subdir ++ "/" ++ filename
  match (do ftp_connection env; env.deleteCmd path : Except PyErr Unit) with
  | .ok _ => .ok true
  | .error (.permError m) =>
    if pyStartsWith "550" m then .ok false else .error (.permError m)
  | .error _ => .ok false

/-- Embedding of the `LIST`-line parsing loop of
`_get_files_with_metadata` (`services/ftp_service.py`): at least nine
whitespace-separated fields, not a directory line, last field a
non-dot `.pdf` filename; field 4 is the size when numeric, fields 5–7
the date. -/
def parseListLine (line : String) : Option FileMeta :=
  let parts := pySplitWs line
  if parts.length ≥ 9 then
    if !pyStartsWith "d" line then
      let filename := parts.getLastD ""
      if pyEndsWith ".pdf" (pyLower filename) && filename ≠ "." && filename ≠ ".." then
        some { filename := filename,
               size := if pyIsDigitStr (parts.getD 4 "") then strToNat (parts.getD 4 "") else 0,
               date := parts.getD 5 "" ++ " " ++ parts.getD 6 "" ++ " " ++ parts.getD 7 "" }
      else none
    else none
  else none

/-- The fetch path of `_get_files_with_metadata`
(`services/ftp_service.py`): list the directory over a fresh session,
parse the lines, store the snapshot (when caching is enabled), and
degrade to the empty list on any exception. -/
def fetch_files_with_metadata (env : FtpEnv) (cache : Cache) (now : Int)
    (subdir : String) (use_cache : Bool) : List FileMeta × Cache :=
  let remote_dir := build_remote_path env subdir
  match (do ftp_connection env; env.cwd remote_dir; env.retrLines remote_dir :
      Except PyErr (List String)) with
  | .ok file_list =>
    let files_with_metadata := file_list.filterMap parseListLine
    if use_cache then
      (files_with_metadata,
        cacheInsert ("metadata_" ++ subdir) ⟨files_with_metadata, now⟩ cache)
    else
      (files_with_metadata, cache)
  | .error _ => ([], cache)

/-- Embedding of `_get_files_with_metadata` (`services/ftp_service.py`):
serve the cached entry when it is younger than the TTL, otherwise fetch
a fresh listing. `now` stands for `datetime.now()` in seconds. -/
def get_files_with_metadata (env : FtpEnv) (cache : Cache) (now : Int) (subdir : String)
    (use_cache : Bool) : List FileMeta × Cache :=
  let cache_key := "metadata_" ++ subdir
  let cached : Option (List FileMeta) :=
    if use_cache then
      match cache.lookup cache_key with
      | some cache_data =>
        if now - cache_data.timestamp < CACHE_DURATION_MINUTES * 60 then
          some cache_data.files
        else none
      | none => none
    else none
  match cached with
  | some files => (files, cache)
  | none => fetch_files_with_metadata env cache now subdir use_cache

/-- Embedding of `find_files_by_cedula` (`services/ftp_service.py`) with
`with_metadata=True`: input validation, then substring filtering over the
cached metadata listing. This path never raises past validation. -/
def find_files_by_cedula_meta (env : FtpEnv) (cache : Cache) (now : Int)
    (remote_subdir cedula : String) : Except PyErr (List FileMeta) × Cache :=
  if cedula = "" then
    (.error (.valueError "La cédula debe ser una cadena no vacía"), cache)
  else if !pyIsDigitStr cedula then
    (.error (.valueError "La cédula debe contener solo números"), cache)
  else if remote_subdir = "" then
    (.error (.valueError "El subdirectorio debe ser una cadena no vacía"), cache)
  else
    let (files, cache') := get_files_with_metadata env cache now remote_subdir true
    (.ok (files.filter (fun fi => pyIn cedula fi.filename)), cache')

/-- The pattern-search fallback of `find_files_by_cedula`
(`services/ftp_service.py`): full listing, `550` yields the empty list,
any other `error_perm` is re-raised as a `ConnectionError`. -/
def findFilesFallback (env : FtpEnv) (remote_dir cedula : String) :
    Except PyErr (List String) :=
  match env.nlst remote_dir with
  | .error (.permError m) =>
    if pyStartsWith "550" m then .ok []
    else .error (.connError ("Error al acceder al directorio FTP: " ++ m))
  | .error e => .error e
  | .ok all_files =>
    .ok (pySortStrings (all_files.filterMap (fun file_path =>
      let filename := pyBasename file_path
      if filename ≠ "" && filename ≠ "." && filename ≠ ".." && !pyEndsWith "/" filename &&
          pyEndsWith ".pdf" (pyLower filename) && pyIn cedula filename then
        some filename
      else none)))

/-- Embedding of `find_files_by_cedula` (`services/ftp_service.py`) with
`with_metadata=False` (the default used by the receipt service): input
validation (raising `ValueError` outside the `try`), then inside the
outer `try` a glob-pattern `NLST` (falling back on `error_perm`), then a
full listing with substring filtering. Every exception escaping the
outer `try` is re-raised as a `ConnectionError` — this path does not
degrade to the empty list. -/
def find_files_by_cedula (env : FtpEnv) (remote_subdir cedula : String) :
    Except PyErr (List String) :=
  if cedula = "" then .error (.valueError "La cédula debe ser una cadena no vacía")
  else if !pyIsDigitStr cedula then .error (.valueError "La cédula debe contener solo números")
  else if remote_subdir = "" then .error (.valueError "El subdirectorio debe ser una cadena no vacía")
  else
    let remote_dir := build_remote_path env remote_subdir
    let body : Except PyErr (List String) := do
      ftp_connection env
      ensure_dirs env remote_dir
      match env.nlst (remote_dir ++ "/*" ++ cedula ++ "*.pdf") with
      | .ok matching_files =>
        let result := (matching_files.map pyBasename).filter
          (fun filename => filename ≠ "" && !pyEndsWith "/" filename)
        if !matching_files.isEmpty && !result.isEmpty then pure (pySortStrings result)
        else findFilesFallback env remote_dir cedula
      | .error (.permError _) => findFilesFallback env remote_dir cedula
      | .error e => .error e
    match body with
    | .ok r => .ok r
    | .error e => .error (.connError ("Error durante la búsqueda FTP: " ++ e.text))

/-- Embedding of `_filter_valid_files` (`services/ftp_service.py`). -/
def filter_valid_files (files : List String) : List String :=
  files.filterMap (fun f =>
    if f ≠ "" && !pyEndsWith "/" f && f ≠ "." && f ≠ ".." then
      let filename := pyBasename f
      if filename ≠ "." && filename ≠ ".." then some filename else none
    else none)

/-- Embedding of `list_files_in_directory` (`services/ftp_service.py`)
with `with_metadata=False`: full listing filtered to valid names; the
outer handler turns every exception into the empty list. -/
def list_files_in_directory (env : FtpEnv) (subdir : String) : List String :=
  let remote_dir := build_remote_path env subdir
  let body : Except PyErr (List String) := do
    ftp_connection env
    match env.nlst remote_dir with
    | .error (.permError m) =>
      if pyStartsWith "550" m then pure []
      else .error (.connError ("Error al acceder al directorio FTP: " ++ m))
    | .error e => .error e
    | .ok all_files => pure (filter_valid_files all_files)
  match body with
  | .ok r => r
  | .error _ => []

/-- One receipt record as assembled by the receipt service
(`services/receipt_service.py`). -/
structure ReceiptData where
  cedula : String
  file_path : String
  file_name : String
  folder : String
  total_found : Nat
deriving Repr, DecidableEq

/-- The remote path construction shared by the receipt-service lookups
(`services/receipt_service.py`, using `os.getenv("FTP_BASE_DIR", "")`). -/
def receiptFilePath (env : FtpEnv) (folder selected_file : String) : String :=
  if env.baseDir ≠ "" then
    pyRStripSlashes env.baseDir ++ "/" ++ folder ++ "/" ++ selected_file
  else "/" ++ folder ++ "/" ++ selected_file

/-- Embedding of `ReceiptService.get_receipts_by_folder`
(`services/receipt_service.py`): validate the folder, search only that
folder, catch every exception of the search into a failure triple, and
otherwise return the first match. -/
def get_receipts_by_folder (env : FtpEnv) (cedula folder : String) :
    Bool × String × List ReceiptData :=
  if folder ≠ "recientes" ∧ folder ≠ "anteriores" then
    (false, "Carpeta inválida: " ++ folder, [])
  else
    match find_files_by_cedula env folder cedula with
    | .error e =>
      (false, "Error al buscar comprobantes en " ++ folder ++ ": " ++ e.text, [])
    | .ok [] =>
      (false, "No se encontraron comprobantes en la carpeta " ++ folder, [])
    | .ok (selected_file :: rest) =>
      (true, "Comprobante encontrado en " ++ folder,
        [{ cedula := cedula,
           file_path := receiptFilePath env folder selected_file,
           file_name := selected_file,
           folder := folder,
           total_found := (selected_file :: rest).length }])

/-- Embedding of `ReceiptService.get_last_two_receipts`
(`services/receipt_service.py`): try both folders, skipping a folder on
any exception (`continue`), and keep the first match of each. -/
def get_last_two_receipts (env : FtpEnv) (cedula : String) :
    Bool × String × List ReceiptData :=
  let result_receipts := ["recientes", "anteriores"].filterMap (fun folder =>
    match find_files_by_cedula env folder cedula with
    | .error _ => none
    | .ok [] => none
    | .ok (selected_file :: rest) =>
      some { cedula := cedula,
             file_path := receiptFilePath env folder selected_file,
             file_name := selected_file,
             folder := folder,
             total_found := (selected_file :: rest).length })
  if result_receipts.isEmpty then
    (false, "No se encontraron comprobantes de pago para la cédula " ++ cedula, [])
  else
    (true, "Se encontraron " ++ toString result_receipts.length ++ " comprobante(s)",
      result_receipts)

/-- Outbound side effects the dialogue produces besides its reply text. -/
inductive Action where
  | sentButtons (dest body : String)
  | sentConfirmation (dest : String)
  | downloadedTemp (remotePath tempPath : String)
  | sentDocument (dest tempPath filename : String)
deriving Repr, DecidableEq

/-- Embedding of `ReceiptService._send_receipt_pdf_from_data`
(`services/receipt_service.py`): confirmation text, download to a
temporary file through the repository, send as document, remove the
temporary file (removal is not modelled as an action). -/
def send_receipt_pdf_from_data (env : FtpEnv) (receipt_data : ReceiptData)
    (phone_number : String) : Bool × String × List Action :=
  let confirmActions := [Action.sentConfirmation phone_number]
  match download_to_temp env receipt_data.file_path with
  | none =>
    (false, "No fue posible descargar el archivo del repositorio remoto", confirmActions)
  | some temp_path =>
    let success := env.sendDoc phone_number temp_path receipt_data.file_name
    let actions := confirmActions ++
      [Action.downloadedTemp receipt_data.file_path temp_path,
       Action.sentDocument phone_number temp_path receipt_data.file_name]
    if success then (true, "Comprobante enviado exitosamente", actions)
    else (false, "Error al enviar el archivo PDF", actions)

/-- Embedding of `ReceiptService.search_and_send_receipt`
(`services/receipt_service.py`): validate cedula and date, search both
folders, and on any match send the two-option quick-reply buttons and
report `options_sent`. -/
def search_and_send_receipt (env : FtpEnv) (current_year : Nat)
    (cedula expedition_date_str phone_number : String) :
    Bool × String × List Action :=
  if !(validate_cedula_format cedula).1 then
    (false, (validate_cedula_format cedula).2, [])
  else if !(validate_date_format current_year expedition_date_str).1 then
    (false, (validate_date_format current_year expedition_date_str).2.1, [])
  else
    match get_last_two_receipts env cedula with
    | (false, message, _) => (false, message, [])
    | (true, _, receipts) =>
      if receipts.length = 0 then
        (false, "No se encontraron comprobantes de pago para los datos proporcionados", [])
      else
        (true, "options_sent",
          [Action.sentButtons phone_number
            ("🧾 *Comprobantes de pago*\n\nPor favor selecciona que comprobante deseas recibir:")])

/-- Outcome of one item of the batch delete endpoint
(`routers/receipts.py`, `process_single_delete`). -/
inductive DeleteItemResult where
  | success (receipt_id filename folder : String)
  | failure (receipt_id error : String)
deriving Repr, DecidableEq

/-- Embedding of `process_single_delete` (`routers/receipts.py`): parse
the id as `folder_filename`, require a known folder, call the FTP
delete, and convert any raised exception into a per-item failure entry
(the web-socket broadcast and its swallowed errors are not modelled). -/
def process_single_delete (env : FtpEnv) (receipt_id : String) : DeleteItemResult :=
  match pySplitOnce '_' receipt_id with
  | none => .failure receipt_id ("Invalid receipt ID: " ++ receipt_id)
  | some (folder, filename) =>
    if folder = "recientes" ∨ folder = "anteriores" then
      match delete_file env folder filename with
      | .ok true => .success receipt_id filename folder
      | .ok false => .failure receipt_id ("Error deleting " ++ receipt_id ++ " from " ++ folder)
      | .error e => .failure receipt_id ("Error processing " ++ receipt_id ++ ": " ++ e.text)
    else .failure receipt_id ("Invalid folder for " ++ receipt_id)

/-- Fuel-driven chunking; with fuel at least the list length and a
positive chunk size it cuts the list into consecutive chunks. -/
def chunksOfFuel (n : Nat) : Nat → List α → List (List α)
  | 0, _ => []
  | _, [] => []
  | fuel + 1, l => l.take n :: chunksOfFuel n fuel (l.drop n)

/-- The sequential fixed-size batching of the batch endpoints
(`routers/receipts.py`, `for i in range(0, len(ids), batch_size)`). -/
def chunksOf (n : Nat) (l : List α) : List (List α) :=
  if n = 0 then [] else chunksOfFuel n l.length l

/-- Result of the batch delete endpoint (`routers/receipts.py`,
`delete_receipts_batch`), together with the resulting metadata cache. -/
structure DeleteBatchResult where
  success : Bool
  deleted : List String
  errors : List String
  total_deleted : Nat
  total_errors : Nat
  cache : Cache
deriving Repr, DecidableEq

/-- Embedding of `delete_receipts_batch` (`routers/receipts.py`): reject
an empty id list (HTTP 400 → `none`), process the ids in chunks of
`min n 5` (the awaited gather preserves order, so the chunking is
immaterial to the collected results), split outcomes into `deleted` ids
and `errors`, and purge the cache entry of every folder a deleted id
names (the Python `set` iteration order does not matter because the
purges commute). -/
def delete_receipts_batch (env : FtpEnv) (cache : Cache) (ids : List String) :
    Option DeleteBatchResult :=
  if ids.isEmpty then none
  else
    let batch_size := Nat.min ids.length 5
    let results := ((chunksOf batch_size ids).map
      (fun batch => batch.map (process_single_delete env))).flatten
    let deleted := results.filterMap (fun r => match r with
      | .success receipt_id _ _ => some receipt_id
      | .failure _ _ => none)
    let errors := results.filterMap (fun r => match r with
      | .success _ _ _ => none
      | .failure _ e => some e)
    let affected_dirs := (deleted.filterMap (fun receipt_id =>
      match pySplitOnce '_' receipt_id with
      | some (folder, _) =>
        if folder = "recientes" ∨ folder = "anteriores" then some folder else none
      | none => none)).dedup
    let cache' :=
      if !deleted.isEmpty then
        affected_dirs.foldl (fun c folder => clear_metadata_cache c (some folder)) cache
      else cache
    some { success := errors.isEmpty, deleted := deleted, errors := errors,
           total_deleted := deleted.length, total_errors := errors.length,
           cache := cache' }

/-- Outcome of one item of the batch upload endpoint
(`routers/receipts.py`, `process_single_file`). -/
inductive UploadItemResult where
  | success (filename original_filename cedula folder : String)
  | failure (filename error : String)
deriving Repr, DecidableEq

/-- Embedding of `process_single_file` (`routers/receipts.py`): require
a `.pdf` name, require an extractable cedula, build the timestamped
target name, and try the FTP upload twice (`env.uploadTry` gives the
outcome of each attempt of `upload_file_to_ftp`, whose I/O is otherwise
outside this endpoint's logic). -/
def process_single_file (env : FtpEnv) (folder original_filename : String) :
    UploadItemResult :=
  if !pyEndsWith ".pdf" (pyLower original_filename) then
    .failure original_filename "Only PDF files are allowed"
  else
    let cedula := extract_cedula_from_filename original_filename
    if cedula = "N/A" then
      .failure original_filename "Could not extract cedula from filename"
    else
      let name_without_ext := pyRemoveAll ".PDF" (pyRemoveAll ".pdf" original_filename)
      let filename := name_without_ext ++ "_" ++ env.nowStamp ++ ".pdf"
      if env.uploadTry filename 1 || env.uploadTry filename 2 then
        .success filename original_filename cedula folder
      else
        .failure original_filename
          "Error uploading file to FTP server after retry - check server logs for details"

/-- Result of the batch upload endpoint (`routers/receipts.py`,
`upload_multiple_receipts`), together with the resulting cache. -/
structure UploadBatchResult where
  success : Bool
  uploaded : List (String × String × String × String)
  failed : List (String × String)
  total_uploaded : Nat
  total_failed : Nat
  cache : Cache
deriving Repr, DecidableEq

/-- Embedding of `upload_multiple_receipts` (`routers/receipts.py`):
reject an empty file list or an unknown folder (HTTP 400 → `none`),
process in chunks of `min n 3`, split outcomes, and purge the target
folder's cache entry exactly when at least one file was uploaded. -/
def upload_multiple_receipts (env : FtpEnv) (cache : Cache) (files : List String)
    (folder : String) : Option UploadBatchResult :=
  if files.isEmpty then none
  else if folder ≠ "recientes" ∧ folder ≠ "anteriores" then none
  else
    let max_workers := Nat.min files.length 3
    let results := ((chunksOf max_workers files).map
      (fun batch => batch.map (process_single_file env folder))).flatten
    let uploaded_files := results.filterMap (fun r => match r with
      | .success fn orig ced fol => some (fn, orig, ced, fol)
      | .failure _ _ => none)
    let failed_files := results.filterMap (fun r => match r with
      | .success _ _ _ _ => none
      | .failure fn e => some (fn, e))
    let cache' :=
      if !uploaded_files.isEmpty then clear_metadata_cache cache (some folder) else cache
    some { success := failed_files.isEmpty, uploaded := uploaded_files,
           failed := failed_files, total_uploaded := uploaded_files.length,
           total_failed := failed_files.length, cache := cache' }

/-- An environment in which the remote store is unreachable: FTP
credentials are missing and the connection fails; nothing else matters. -/
def envDown : FtpEnv where
  credsOk := false
  baseDir := ""
  publicBaseUrl := ""
  connect := .error (.connError "Network is unreachable")
  mkd := fun _ => .ok ()
  nlst := fun _ => .ok []
  cwd := fun _ => .ok ()
  retrLines := fun _ => .ok []
  retrFile := fun _ => .ok ()
  stor := fun _ => .ok ()
  deleteCmd := fun _ => .ok ()
  tempPath := fun _ => "/tmp/tmpfile.pdf"
  localExists := fun _ => true
  nowStamp := "20250101_000000"
  sendMessage := fun _ _ => true
  sendButtons := fun _ _ => true
  sendDoc := fun _ _ _ => true
  uploadTry := fun _ _ => false

/-- A healthy environment: every FTP primitive succeeds, and the listing
of any directory shows exactly one PDF, `new_99999999.pdf`. -/
def envOk : FtpEnv where
  credsOk := true
  baseDir := ""
  publicBaseUrl := ""
  connect := .ok ()
  mkd := fun _ => .ok ()
  nlst := fun _ => .ok []
  cwd := fun _ => .ok ()
  retrLines := fun _ =>
    .ok ["-rw-r--r-- 1 user group 1234 Sep 4 11:02 new_99999999.pdf"]
  retrFile := fun _ => .ok ()
  stor := fun _ => .ok ()
  deleteCmd := fun _ => .ok ()
  tempPath := fun _ => "/tmp/tmpfile.pdf"
  localExists := fun _ => true
  nowStamp := "20250101_000000"
  sendMessage := fun _ _ => true
  sendButtons := fun _ _ => true
  sendDoc := fun _ _ _ => true
  uploadTry := fun _ _ => true

/-- The snapshot held by `cacheOld` for the `recientes` bucket. -/
def oldMeta : FileMeta where
  filename := "old_12345678.pdf"
  size := 100
  date := "Sep 1 10:00"

/-- What a fresh listing under `envOk` parses to. -/
def newMeta : FileMeta where
  filename := "new_99999999.pdf"
  size := 1234
  date := "Sep 4 11:02"

/-- A cache holding a pre-mutation snapshot for `recientes`, captured at
time 0. -/
def cacheOld : Cache := [("metadata_recientes", ⟨[oldMeta], 0⟩)]

/-- A failed connection makes the fetch path of the metadata listing
degrade to the empty list, leaving the cache untouched. -/
theorem fetch_files_error (env : FtpEnv) (cache : Cache) (now : Int) (subdir : String)
    (u : Bool) (e : PyErr) (he : ftp_connection env = .error e) :
    fetch_files_with_metadata env cache now subdir u = ([], cache) := by
  simp [fetch_files_with_metadata, he, Bind.bind, Except.bind]

/-- The files returned by the fetch path do not depend on whether the
snapshot is stored back into the cache. -/
theorem fetch_files_fst_eq (env : FtpEnv) (cache : Cache) (now : Int) (subdir : String) :
    (fetch_files_with_metadata env cache now subdir true).1 =
      (fetch_files_with_metadata env cache now subdir false).1 := by
  simp only [fetch_files_with_metadata, Bind.bind, Except.bind]
  cases hc : ftp_connection env with
  | error e => simp
  | ok u =>
    cases hw : env.cwd (build_remote_path env subdir) with
    | error e => simp
    | ok u2 =>
      cases hr : env.retrLines (build_remote_path env subdir) with
      | error e => simp
      | ok l => simp

/-- Claim C6, counterexample: with the remote store unreachable, the
non-metadata find path does not return an empty list — it raises a
`ConnectionError` (`find_files_by_cedula` wraps every failure of its
outer `try` in `raise ConnectionError(...)`, `services/ftp_service.py`
line 294). -/
theorem C6_find_files_counterexample :
    find_files_by_cedula envDown "recientes" "123456" =
      .error (.connError
        "Error durante la búsqueda FTP: Faltan credenciales FTP requeridas") ∧
    find_files_by_cedula envDown "recientes" "123456" ≠ .ok [] :=
  ⟨rfl, fun h => Except.noConfusion h⟩

/-- Claim C6 (amended): when the remote store is unreachable, the
metadata path and the plain list path degrade to the empty list, but the
non-metadata find path instead raises a `ConnectionError`; that error is
caught by the receipt-service callers (`get_receipts_by_folder` turns it
into a failure triple, `get_last_two_receipts` skips the folder), so no
remote-store error reaches the dialogue engine as an unhandled fault. -/
theorem C6_remote_error_amended (env : FtpEnv) (cache : Cache) (now : Int)
    (subdir ced : String) :
    ((∃ e, ftp_connection env = .error e) →
      (∀ cd, cache.lookup ("metadata_" ++ subdir) = some cd →
        CACHE_DURATION_MINUTES * 60 ≤ now - cd.timestamp) →
      get_files_with_metadata env cache now subdir true = ([], cache)) ∧
    ((∃ e, ftp_connection env = .error e) →
      list_files_in_directory env subdir = []) ∧
    ((∃ e, ftp_connection env = .error e) → ced ≠ "" → pyIsDigitStr ced = true →
      subdir ≠ "" →
      ∃ msg, find_files_by_cedula env subdir ced = .error (.connError msg)) ∧
    (∀ e, find_files_by_cedula env subdir ced = .error e →
      ¬(subdir ≠ "recientes" ∧ subdir ≠ "anteriores") →
      get_receipts_by_folder env ced subdir =
        (false, "Error al buscar comprobantes en " ++ subdir ++ ": " ++ e.text, [])) ∧
    ((∀ folder, folder = "recientes" ∨ folder = "anteriores" →
        ∃ e, find_files_by_cedula env folder ced = .error e) →
      get_last_two_receipts env ced =
        (false, "No se encontraron comprobantes de pago para la cédula " ++ ced, [])) := by
  refine ⟨?_, ?_, ?_, ?_, ?_⟩
  · rintro ⟨e, he⟩ hstale
    have hf := fetch_files_error env cache now subdir true e he
    simp only [get_files_with_metadata]
    cases hl : cache.lookup ("metadata_" ++ subdir) with
    | none => simpa [hl] using hf
    | some cd =>
      have hns : ¬(now - cd.timestamp < CACHE_DURATION_MINUTES * 60) := by
        have := hstale cd hl
        omega
      simpa [hl, hns] using hf
  · rintro ⟨e, he⟩
    simp [list_files_in_directory, he, Bind.bind, Except.bind]
  · rintro ⟨e, he⟩ h1 h2 h3
    refine ⟨"Error durante la búsqueda FTP: " ++ e.text, ?_⟩
    simp only [find_files_by_cedula]
    rw [if_neg h1, if_neg (by simp [h2]), if_neg h3]
    simp [he, Bind.bind, Except.bind]
  · intro e he hfolder
    simp only [get_receipts_by_folder]
    rw [if_neg hfolder, he]
  · intro h
    obtain ⟨e1, he1⟩ := h "recientes" (Or.inl rfl)
    obtain ⟨e2, he2⟩ := h "anteriores" (Or.inr rfl)
    simp [get_last_two_receipts, he1, he2]

/-- Witness for C6 (amended) in the unreachable environment: the
metadata path returns the empty list, the find path returns a
`ConnectionError`, and `get_receipts_by_folder` absorbs it. -/
theorem C6_remote_error_amended_witness :
    get_files_with_metadata envDown [] 0 "recientes" true = ([], []) ∧
    list_files_in_directory envDown "recientes" = [] ∧
    (∃ msg, find_files_by_cedula envDown "recientes" "123456" =
      .error (.connError msg)) := by
  have h := C6_remote_error_amended envDown [] 0 "recientes" "123456"
  have hdown : ∃ e, ftp_connection envDown = .error e :=
    ⟨.connError "Faltan credenciales FTP requeridas", rfl⟩
  exact ⟨h.1 hdown (by intro cd hcd; exact absurd hcd (by simp)),
    h.2.1 hdown,
    h.2.2.1 hdown (by decide) (by decide) (by decide)⟩

/-- Claim C8: the metadata cache never serves a stale snapshot — a
cached entry is returned only when strictly younger than the 5-minute
TTL; at or beyond the TTL (or with no entry) the read produces exactly
what a fresh uncached listing produces. -/
theorem C8_cache_ttl (env : FtpEnv) (cache : Cache) (now : Int) (subdir : String) :
    (∀ cd, cache.lookup ("metadata_" ++ subdir) = some cd →
      now - cd.timestamp < CACHE_DURATION_MINUTES * 60 →
      get_files_with_metadata env cache now subdir true = (cd.files, cache)) ∧
    (∀ cd, cache.lookup ("metadata_" ++ subdir) = some cd →
      CACHE_DURATION_MINUTES * 60 ≤ now - cd.timestamp →
      (get_files_with_metadata env cache now subdir true).1 =
        (get_files_with_metadata env cache now subdir false).1) ∧
    (cache.lookup ("metadata_" ++ subdir) = none →
      (get_files_with_metadata env cache now subdir true).1 =
        (get_files_with_metadata env cache now subdir false).1) := by
  refine ⟨?_, ?_, ?_⟩
  · intro cd hcd hfresh
    simp [get_files_with_metadata, hcd, hfresh]
  · intro cd hcd hstale
    have hns : ¬(now - cd.timestamp < CACHE_DURATION_MINUTES * 60) := by omega
    simpa [get_files_with_metadata, hcd, hns] using
      fetch_files_fst_eq env cache now subdir
  · intro hnone
    simpa [get_files_with_metadata, hnone] using
      fetch_files_fst_eq env cache now subdir

/-- Witness for C8: at age 299 s the cached snapshot is served; at age
300 s (exactly the TTL) the fresh listing is consulted instead. -/
theorem C8_cache_ttl_witness :
    get_files_with_metadata envOk cacheOld 299 "recientes" true = ([oldMeta], cacheOld) ∧
    (get_files_with_metadata envOk cacheOld 300 "recientes" true).1 =
      (get_files_with_metadata envOk cacheOld 300 "recientes" false).1 :=
  ⟨(C8_cache_ttl envOk cacheOld 299 "recientes").1 ⟨[oldMeta], 0⟩ rfl (by decide),
    (C8_cache_ttl envOk cacheOld 300 "recientes").2.1 ⟨[oldMeta], 0⟩ rfl (by decide)⟩

/-- Clearing a bucket's cache entry removes its key. -/
theorem lookup_clear_self (c : Cache) (f : String) :
    (clear_metadata_cache c (some f)).lookup ("metadata_" ++ f) = none := by
  induction c with
  | nil => rfl
  | cons kv rest ih =>
    obtain ⟨k, v⟩ := kv
    simp only [clear_metadata_cache] at ih ⊢
    rw [List.filter_cons]
    by_cases h : k = "metadata_" ++ f
    · rw [if_neg (by simp [h])]
      exact ih
    · rw [if_pos (by simp [h]), List.lookup_cons]
      have : ("metadata_" ++ f == k) = false := by
        simp
        exact fun hx => h hx.symm
      rw [this]
      exact ih

/-- Clearing any bucket preserves the absence of a key. -/
theorem lookup_clear_preserve (c : Cache) (f g : String) (h : c.lookup g = none) :
    (clear_metadata_cache c (some f)).lookup g = none := by
  induction c with
  | nil => rfl
  | cons kv rest ih =>
    obtain ⟨k, v⟩ := kv
    rw [List.lookup_cons] at h
    cases hbe : (g == k) with
    | true => rw [hbe] at h; exact Option.noConfusion h
    | false =>
      rw [hbe] at h
      simp only [clear_metadata_cache] at ih ⊢
      rw [List.filter_cons]
      by_cases hk : k = "metadata_" ++ f
      · rw [if_neg (by simp [hk])]
        exact ih h
      · rw [if_pos (by simp [hk]), List.lookup_cons, hbe]
        exact ih h

/-- Folding clears over a list of buckets preserves the absence of a
key. -/
theorem lookup_foldl_clear_preserve :
    ∀ (dirs : List String) (c : Cache) (g : String), c.lookup g = none →
      (dirs.foldl (fun c folder => clear_metadata_cache c (some folder)) c).lookup g =
        none := by
  intro dirs
  induction dirs with
  | nil => intro c g h; exact h
  | cons d ds ih =>
    intro c g h
    exact ih _ _ (lookup_clear_preserve _ _ _ h)

/-- After folding clears over a list of buckets, every bucket of the
list has no cache entry. -/
theorem lookup_foldl_clear :
    ∀ (dirs : List String) (c : Cache) (f : String), f ∈ dirs →
      (dirs.foldl (fun c folder => clear_metadata_cache c (some folder)) c).lookup
        ("metadata_" ++ f) = none := by
  intro dirs
  induction dirs with
  | nil => intro c f hf; cases hf
  | cons d ds ih =>
    intro c f hf
    rcases List.mem_cons.mp hf with h | h
    · subst h
      exact lookup_foldl_clear_preserve ds _ _ (lookup_clear_self c f)
    · exact ih _ _ h

/-- With positive chunk size and enough fuel, flattening the chunks
gives back the list. -/
theorem chunksOfFuel_flatten (n : Nat) (hn : n ≠ 0) :
    ∀ (fuel : Nat) (l : List α), l.length ≤ fuel →
      (chunksOfFuel n fuel l).flatten = l := by
  intro fuel
  induction fuel with
  | zero =>
    intro l hl
    have : l = [] := List.eq_nil_of_length_eq_zero (Nat.le_zero.mp hl)
    subst this
    rfl
  | succ fuel ih =>
    intro l hl
    cases l with
    | nil => rfl
    | cons x xs =>
      show ((x :: xs).take n :: chunksOfFuel n fuel ((x :: xs).drop n)).flatten = x :: xs
      have hlen : ((x :: xs).drop n).length ≤ fuel := by
        simp only [List.length_drop, List.length_cons]
        simp only [List.length_cons] at hl
        omega
      rw [List.flatten_cons, ih _ hlen]
      exact List.take_append_drop n (x :: xs)

/-- Flattening a chunk-wise map is the map of the whole list. -/
theorem flatten_map_map (f : α → β) :
    ∀ L : List (List α), (L.map (fun b => b.map f)).flatten = L.flatten.map f := by
  intro L
  induction L with
  | nil => rfl
  | cons b L ih => simp only [List.map_cons, List.flatten_cons, List.map_append, ih]

/-- Chunked processing collects exactly the item-wise results, in
order. -/
theorem chunksOf_map_flatten (n : Nat) (hn : n ≠ 0) (f : α → β) (l : List α) :
    ((chunksOf n l).map (fun b => b.map f)).flatten = l.map f := by
  unfold chunksOf
  rw [if_neg hn, flatten_map_map, chunksOfFuel_flatten n hn l.length l (Nat.le_refl _)]

/-- Whether one delete item succeeds, as a function of that item alone. -/
def deleteItemSucceeds (env : FtpEnv) (receipt_id : String) : Bool :=
  match process_single_delete env receipt_id with
  | .success _ _ _ => true
  | .failure _ _ => false

/-- Every outcome of `process_single_delete` carries its input id. -/
theorem process_single_delete_id (env : FtpEnv) (i : String) :
    (match process_single_delete env i with
      | .success a _ _ => a
      | .failure a _ => a) = i := by
  cases hs : pySplitOnce '_' i with
  | none => simp [process_single_delete, hs]
  | some p =>
    obtain ⟨folder, filename⟩ := p
    simp only [process_single_delete, hs]
    by_cases hf : folder = "recientes" ∨ folder = "anteriores"
    · rw [if_pos hf]
      cases hd : delete_file env folder filename with
      | ok b => cases b <;> rfl
      | error e => rfl
    · rw [if_neg hf]

/-- The collected successful ids of the batch delete are exactly the ids
whose individual processing succeeds. -/
theorem deleted_filterMap (env : FtpEnv) :
    ∀ l : List String,
      (l.filterMap ((fun r => match r with
        | DeleteItemResult.success receipt_id _ _ => some receipt_id
        | DeleteItemResult.failure _ _ => none) ∘ process_single_delete env)) =
      l.filter (fun i => deleteItemSucceeds env i) := by
  intro l
  induction l with
  | nil => rfl
  | cons i l ih =>
    simp only [List.filterMap_cons, List.filter_cons, Function.comp]
    cases hp : process_single_delete env i with
    | success a b c =>
      have ha : a = i := by
        have := process_single_delete_id env i
        rw [hp] at this
        exact this
      have hs : deleteItemSucceeds env i = true := by simp [deleteItemSucceeds, hp]
      simp only [hs, if_true, ha, ih]
    | failure a e =>
      have hs : deleteItemSucceeds env i = false := by simp [deleteItemSucceeds, hp]
      simp only [hs, Bool.false_eq_true, if_false, ih]

/-- The collected error entries of the batch delete number exactly the
failing ids. -/
theorem errors_length (env : FtpEnv) :
    ∀ l : List String,
      (l.filterMap ((fun r => match r with
        | DeleteItemResult.success _ _ _ => none
        | DeleteItemResult.failure _ e => some e) ∘ process_single_delete env)).length =
      (l.filter (fun i => !deleteItemSucceeds env i)).length := by
  intro l
  induction l with
  | nil => rfl
  | cons i l ih =>
    simp only [List.filterMap_cons, List.filter_cons, Function.comp]
    cases hp : process_single_delete env i with
    | success a b c =>
      have hs : deleteItemSucceeds env i = true := by simp [deleteItemSucceeds, hp]
      simp only [hs, Bool.not_true, Bool.false_eq_true, if_false, ih]
    | failure a e =>
      have hs : deleteItemSucceeds env i = false := by simp [deleteItemSucceeds, hp]
      simp only [hs, Bool.not_false, if_true, List.length_cons, ih]

/-- A list splits into the items satisfying a predicate and those
falsifying it. -/
theorem length_filter_not (p : α → Bool) :
    ∀ l : List α, (l.filter p).length + (l.filter (fun a => !p a)).length = l.length := by
  intro l
  induction l with
  | nil => rfl
  | cons x l ih =>
    simp only [List.filter_cons]
    cases hp : p x <;> simp [ih] <;> omega

/-- Claim C7, counterexample: the single-item `upload_file` succeeds on
the `recientes` bucket yet does not touch the metadata cache (it has no
cache access at all, `services/ftp_service.py` lines 116–169; only the
batch endpoints call `clear_metadata_cache`), so a metadata read right
after the successful upload still returns the pre-mutation cached
snapshot within the TTL, while a fresh listing would show the new
file. -/
theorem C7_upload_no_purge_counterexample :
    (upload_file envOk "/tmp/local.pdf" "recientes" "new_99999999.pdf").2 =
      some "recientes/new_99999999.pdf" ∧
    (get_files_with_metadata envOk cacheOld 60 "recientes" true).1 = [oldMeta] ∧
    (get_files_with_metadata envOk cacheOld 60 "recientes" false).1 = [newMeta] ∧
    ([oldMeta] : List FileMeta) ≠ [newMeta] :=
  ⟨rfl, rfl, rfl, by decide⟩

/-- Claim C7 (amended): cache purging is performed only by the batch
endpoints — `delete_receipts_batch` purges the bucket of every
successfully deleted id and `upload_multiple_receipts` purges the target
bucket when at least one file uploaded — while the single-item
`upload_file` leaves the cache untouched, so a metadata read after a
successful single-item upload still serves a fresh pre-mutation entry
within the TTL. -/
theorem C7_cache_purge_amended :
    (∀ (env : FtpEnv) (lp sd fn : String) (cache : Cache) (now : Int) (cd : CacheEntry),
      (upload_file env lp sd fn).2 ≠ none →
      cache.lookup ("metadata_" ++ sd) = some cd →
      now - cd.timestamp < CACHE_DURATION_MINUTES * 60 →
      get_files_with_metadata env cache now sd true = (cd.files, cache)) ∧
    (∀ (env : FtpEnv) (cache : Cache) (ids : List String) (res : DeleteBatchResult),
      delete_receipts_batch env cache ids = some res →
      ∀ id ∈ res.deleted, ∀ folder rest, pySplitOnce '_' id = some (folder, rest) →
        folder = "recientes" ∨ folder = "anteriores" →
        res.cache.lookup ("metadata_" ++ folder) = none) ∧
    (∀ (env : FtpEnv) (cache : Cache) (files : List String) (folder : String)
        (res : UploadBatchResult),
      upload_multiple_receipts env cache files folder = some res →
      res.uploaded ≠ [] → res.cache.lookup ("metadata_" ++ folder) = none) := by
  refine ⟨?_, ?_, ?_⟩
  · intro env lp sd fn cache now cd _ hcd hfresh
    simp [get_files_with_metadata, hcd, hfresh]
  · intro env cache ids res heq id hid folder rest hsplit hvalid
    unfold delete_receipts_batch at heq
    by_cases hids : ids.isEmpty
    · rw [if_pos hids] at heq
      exact Option.noConfusion heq
    · rw [if_neg hids] at heq
      injection heq with heq
      subst heq
      simp only at hid ⊢
      have hne : ¬((((chunksOf (Nat.min ids.length 5) ids).map
          (fun batch => batch.map (process_single_delete env))).flatten.filterMap
            (fun r => match r with
              | DeleteItemResult.success receipt_id _ _ => some receipt_id
              | DeleteItemResult.failure _ _ => none)).isEmpty = true) := by
        intro hempty
        rw [List.isEmpty_iff] at hempty
        rw [hempty] at hid
        cases hid
      rw [Bool.not_eq_true] at hne
      rw [hne]
      simp only [Bool.not_false, if_true]
      refine lookup_foldl_clear _ _ _ ?_
      refine List.mem_dedup.mpr ?_
      refine List.mem_filterMap.mpr ⟨id, hid, ?_⟩
      rw [hsplit]
      simp [hvalid]
  · intro env cache files folder res heq hup
    unfold upload_multiple_receipts at heq
    by_cases hfs : files.isEmpty
    · rw [if_pos hfs] at heq
      exact Option.noConfusion heq
    · rw [if_neg hfs] at heq
      by_cases hfold : folder ≠ "recientes" ∧ folder ≠ "anteriores"
      · rw [if_pos hfold] at heq
        exact Option.noConfusion heq
      · rw [if_neg hfold] at heq
        injection heq with heq
        subst heq
        simp only at hup ⊢
        have hne : ¬((((chunksOf (Nat.min files.length 3) files).map
            (fun batch => batch.map (process_single_file env folder))).flatten.filterMap
              (fun r => match r with
                | UploadItemResult.success fn orig ced fol => some (fn, orig, ced, fol)
                | UploadItemResult.failure _ _ => none)).isEmpty = true) := by
          intro hempty
          rw [List.isEmpty_iff] at hempty
          exact hup hempty
        rw [Bool.not_eq_true] at hne
        rw [hne]
        simp only [Bool.not_false, if_true]
        exact lookup_clear_self cache folder

/-- Witness for C7 (amended): a concrete batch upload of one file into
`recientes` purges that bucket's entry from a cache that held one. -/
theorem C7_cache_purge_amended_witness :
    ∃ res, upload_multiple_receipts envOk cacheOld ["informe_12345678.pdf"]
        "recientes" = some res ∧
      res.cache.lookup ("metadata_" ++ "recientes") = none := by
  refine ⟨_, rfl, ?_⟩
  exact C7_cache_purge_amended.2.2 envOk cacheOld ["informe_12345678.pdf"]
    "recientes" _ rfl (by decide)

/-- Claim C9: the batch delete itemizes outcomes independently — the
returned `deleted` list is exactly the ids whose own processing
succeeds (independent of every other id), the error list counts exactly
the failing ids, the totals match, and they partition the request. -/
theorem C9_delete_batch_spec (env : FtpEnv) (cache : Cache) (ids : List String)
    (h : ids ≠ []) :
    ∃ res, delete_receipts_batch env cache ids = some res ∧
      res.deleted = ids.filter (fun i => deleteItemSucceeds env i) ∧
      res.errors.length = (ids.filter (fun i => !deleteItemSucceeds env i)).length ∧
      res.total_deleted = res.deleted.length ∧
      res.total_errors = res.errors.length ∧
      res.total_deleted + res.total_errors = ids.length ∧
      res.success = res.errors.isEmpty := by
  have hne : ¬(ids.isEmpty = true) := by
    cases ids with
    | nil => exact absurd rfl h
    | cons x xs => simp
  have hlen : ids.length ≠ 0 := by
    cases ids with
    | nil => exact absurd rfl h
    | cons x xs => simp
  have hbs : Nat.min ids.length 5 ≠ 0 := by
    show (if ids.length ≤ 5 then ids.length else 5) ≠ 0
    split_ifs <;> omega
  have hres : ((chunksOf (Nat.min ids.length 5) ids).map
      (fun batch => batch.map (process_single_delete env))).flatten =
      ids.map (process_single_delete env) :=
    chunksOf_map_flatten _ hbs _ _
  unfold delete_receipts_batch
  rw [if_neg hne]
  refine ⟨_, rfl, ?_, ?_, rfl, rfl, ?_, rfl⟩
  · simp only [hres, List.filterMap_map]
    exact deleted_filterMap env ids
  · simp only [hres, List.filterMap_map]
    exact errors_length env ids
  · simp only [hres, List.filterMap_map]
    rw [deleted_filterMap env ids, errors_length env ids]
    exact length_filter_not _ ids

/-- An environment in which deleting `recientes/bad.pdf` reports "not
found" (FTP 550) while every other delete succeeds. -/
def envDelCmd (path : String) : Except PyErr Unit :=
  if path = "recientes/bad.pdf" then .error (.permError "550 not found")
  else .ok ()

/-- See `envDelCmd`: only `recientes/bad.pdf` fails to delete. -/
def envDel : FtpEnv :=
  { envOk with deleteCmd := envDelCmd }

/-- Witness for C9: a batch of five ids of which three fail (one FTP
"not found", one malformed id, one unknown folder) reports exactly the
two successful ids and three errors. -/
theorem C9_delete_batch_witness :
    ∃ res, delete_receipts_batch envDel [] ["recientes_a.pdf", "recientes_bad.pdf",
        "anteriores_b.pdf", "nounderscore", "x_y.pdf"] = some res ∧
      res.deleted = ["recientes_a.pdf", "anteriores_b.pdf"] ∧
      res.total_deleted = 2 ∧ res.total_errors = 3 ∧ res.success = false := by
  obtain ⟨res, heq, hdel, herrlen, htd, hte, hsum, hsucc⟩ :=
    C9_delete_batch_spec envDel [] ["recientes_a.pdf", "recientes_bad.pdf",
      "anteriores_b.pdf", "nounderscore", "x_y.pdf"] (by decide)
  refine ⟨res, heq, ?_, ?_, ?_, ?_⟩
  · rw [hdel]
    decide
  · rw [htd, hdel]
    decide
  · rw [hte, herrlen]
    decide
  · rw [hsucc]
    have : res.errors.length = 3 := by rw [herrlen]; decide
    cases herr : res.errors with
    | nil => rw [herr] at this; exact absurd this (by decide)
    | cons x xs => simp [herr]

/-- Days since the Unix epoch of a civil date (standard civil-calendar
conversion, valid for the years this program accepts); models the
`datetime(year, month, day)` value the date validator hands to
`validate_user_data`, whose day-difference arithmetic it preserves. -/
def daysFromCivil (y m d : Nat) : Int :=
  let y' := if m ≤ 2 then y - 1 else y
  let era := y' / 400
  let yoe := y' % 400
  let mp := if m > 2 then m - 3 else m + 9
  let doy := (153 * mp + 2) / 5 + d - 1
  let doe := yoe * 365 + yoe / 4 - yoe / 100 + doy
  (era * 146097 + doe : Int) - 719468

/-- The full main-menu text (`WELCOME_MESSAGE` in
`services/bot_service.py`). -/
def WELCOME_MESSAGE : String :=
  "¡Bienvenid@ a Agropecuaria Juradó S.A.S! 👋\n\nPara poder ayudarte, por favor elige una de las siguientes opciones: 👇\n\n*1.* 📲 Lineas de atención\n\n*2.* 🧾 Mi comprobante de pago\n\n*3.* 😊 Mi estado de ánimo\n\n*4.* 📣 Realizar una queja o denuncia\n\n*5.* 👤 Tratamiento de datos\n\n*6.* ❌ Cancelar mi suscripción\n\n_💡 Responde con el número de la opción que necesitas._"

/-- The footer offering a way back to the menu (`MENU_RETURN_MESSAGE` in
`services/bot_service.py`). -/
def MENU_RETURN_MESSAGE : String :=
  "_Para volver al menú principal, escribe:_\n(\x27 *0* \x27, \x27 *menu* \x27, \x27 *volver* \x27 o \x27 *salir* \x27)."

/-- The cancel tokens of `_handle_receipt_conversation`
(`services/bot_service.py` line 223). -/
def cancel_keywords : List String :=
  ["cancelar", "cancel", "menu", "menú", "volver", "atras", "atrás", "salir", "0"]

/-- The per-contact conversation context. The source serializes it as a
JSON object on the contact row (`conversation_data`); the embedding
keeps it structured: the stored cedula (`data.get("cedula")`, absent
keys being `none`) and the `receipts_found` marker. -/
structure ConvData where
  cedula : Option String := none
  receipts_found : Bool := false
deriving Repr, DecidableEq

/-- The dialogue-relevant fields of the contact row (`WhatsappUser` in
`models/whatsapp_models.py`). -/
structure WhatsappUser where
  conversation_state : Option String
  conversation_data : Option ConvData
deriving Repr, DecidableEq

/-- One dialogue step's outcome: the reply text, the contact row after
the step's commits, and the outbound side effects. -/
structure BotStep where
  text : String
  user : WhatsappUser
  actions : List Action
deriving Repr, DecidableEq

/-- Embedding of `ReceiptService.send_selected_receipt`
(`services/receipt_service.py`): the bot always passes the
dictionary-shaped data, so this is `_send_receipt_pdf_from_data`. -/
def send_selected_receipt (env : FtpEnv) (receipt_data : ReceiptData)
    (phone_number : String) : Bool × String × List Action :=
  send_receipt_pdf_from_data env receipt_data phone_number

/-- Embedding of `_handle_receipt_conversation`
(`services/bot_service.py` lines 211–434). The cancel check runs first,
before any state dispatch. Notes on the embedding: `json.loads(data or
"{}")` is `user.conversation_data.getD {}`; the validator's
`date_obj` is present exactly when validation succeeds, so the date
branch matches on it; `receipts[0]` after a successful folder query is
`List.headD` with an unreachable default (success implies one match);
`datetime(y, m, d)` is converted to days via `daysFromCivil`. -/
def handle_receipt_conversation (env : FtpEnv) (db : List PaymentUser)
    (current_year : Nat) (message user_phone_number : String)
    (user : WhatsappUser) (_display_name : String) : BotStep :=
  let conversation_state := user.conversation_state
  let message_lower := pyLower (pyStrip message)
  if message_lower ∈ cancel_keywords then
    { text := WELCOME_MESSAGE,
      user := { conversation_state := none, conversation_data := none },
      actions := [] }
  else if conversation_state = some "waiting_cedula" then
    if !(validate_cedula_format message).1 then
      { text := "❌ " ++ (validate_cedula_format message).2 ++
          "\n\nPor favor, ingresa tu cédula nuevamente.",
        user := user, actions := [] }
    else
      match is_cedula_registered db message with
      | (false, _, _) =>
        { text := "❌ La cédula " ++ message ++
            " no existe en nuestros registros.\n\nPor favor, ingresa tu número de cédula nuevamente:",
          user := { conversation_state := some "waiting_cedula",
                    conversation_data := none },
          actions := [] }
      | (true, _, user_data) =>
        { text := "¡Hola " ++ (match user_data with | some u => u.name | none => "") ++
            "! ☺️\n\npara continuar, por favor ingresa la\n*fecha de expedición de tu cédula*.\n\nLa fecha debe estar en formato:\n*DD/MM/AAAA*\n\nEjemplo: *15/03/1990*",
          user := { conversation_state := some "waiting_date",
                    conversation_data := some { cedula := some message } },
          actions := [] }
  else if conversation_state = some "waiting_date" then
    match validate_date_format current_year message with
    | (_, date_message, none) =>
      { text := "❌ " ++ date_message ++
          "\n\nPor favor, ingresa la fecha nuevamente en formato DD/MM/AAAA.",
        user := user, actions := [] }
    | (_, _, some (d, m, y)) =>
      let conversation_data := user.conversation_data.getD {}
      let cedula := conversation_data.cedula
      let vres := match cedula with
        | some ced => validate_user_data db ced (daysFromCivil y m d)
        | none => (false, "No se encontró un usuario registrado con esa cédula", none)
      if !vres.1 then
        { text := "❌ " ++ vres.2.1 ++
            "\n\nPor favor, verifica la fecha de expedición e intenta nuevamente.",
          user := user, actions := [] }
      else
        match cedula with
        | none =>
          { text := "❌ Error en el proceso. Por favor, inicia nuevamente seleccionando \x27Mi comprobante de pago\x27.",
            user := { conversation_state := none, conversation_data := none },
            actions := [] }
        | some ced =>
          let (success, result_message, send_actions) :=
            search_and_send_receipt env current_year ced message user_phone_number
          if success && pyIn "options_sent" result_message then
            { text := "",
              user := { conversation_state := some "waiting_receipt_selection",
                        conversation_data := some { conversation_data with receipts_found := true } },
              actions := send_actions }
          else
            { text := if success then
                "✅ " ++ result_message ++
                  "\n\n¡Espero que esto te ayude! Si necesitas algo más, no dudes en contactarnos.\n\n" ++
                  MENU_RETURN_MESSAGE
              else
                "❌ " ++ result_message ++
                  "\n\nSi crees que hay un error, por favor acercate a las oficinas de Talento Humano.\n\n" ++
                  MENU_RETURN_MESSAGE,
              user := { conversation_state := none, conversation_data := none },
              actions := send_actions }
  else if conversation_state = some "waiting_receipt_selection" then
    if message = "1" ∨ message = "2" then
      let conversation_data := user.conversation_data.getD {}
      match conversation_data.cedula with
      | none =>
        { text := "❌ Error en el proceso. Por favor, inicia nuevamente seleccionando \x27Mi comprobante de pago\x27.",
          user := { conversation_state := none, conversation_data := none },
          actions := [] }
      | some cedula =>
        let folder_name := if message = "2" then "recientes" else "anteriores"
        match get_receipts_by_folder env cedula folder_name with
        | (false, _, _) =>
          { text := if message = "2" then
              "❌ Aún no tienes comprobantes de la quincena actual. 😓\n\nLos comprobantes se generan después de cada pago de nómina.\n\n" ++
                MENU_RETURN_MESSAGE
            else
              "❌ No tienes comprobantes de la quincena anterior. 😓\n\nLos comprobantes de quincenas anteriores se archivan automáticamente.\n\n" ++
                MENU_RETURN_MESSAGE,
            user := { conversation_state := none, conversation_data := none },
            actions := [] }
        | (true, _, receipts) =>
          let selected_receipt := receipts.headD
            { cedula := cedula, file_path := "", file_name := "",
              folder := folder_name, total_found := 0 }
          let (success, result_message, send_actions) :=
            send_selected_receipt env selected_receipt user_phone_number
          { text := if success then
              "✅ " ++ result_message ++
                "\n\n¡Espero que esto te ayude! Si necesitas algo más, no dudes en contactarnos.\n\n" ++
                MENU_RETURN_MESSAGE
            else
              "❌ " ++ result_message ++
                "\n\nSi crees que hay un error, por favor contacta directamente a:\n🧾 *Área de Contabilidad:* 310 3367098\n\n" ++
                MENU_RETURN_MESSAGE,
            user := { conversation_state := none, conversation_data := none },
            actions := send_actions }
    else
      { text := "❌ Por favor, responde con \x271\x27 para la quincena anterior o \x272\x27 para la quincena reciente.",
        user := user, actions := [] }
  else
    { text := "❌ Error en el proceso. Por favor, inicia nuevamente seleccionando \x27Mi comprobante de pago\x27.",
      user := { conversation_state := none, conversation_data := none },
      actions := [] }

/-- Claim C1, counterexample: "back" is one of the claim's cancel
tokens, is already lowercase and trimmed, yet at `waiting_cedula` it is
not a cancel token of the source (`cancel_keywords` has the Spanish
`volver`/`atras` instead): the engine stays in `waiting_cedula` and
replies with the cedula-format error, not the main menu. -/
theorem C1_cancel_tokens_counterexample :
    pyLower (pyStrip "back") = "back" ∧
    "back" ∉ cancel_keywords ∧
    (handle_receipt_conversation envOk [] 2025 "back" "p"
      ⟨some "waiting_cedula", none⟩ "dn").user.conversation_state =
        some "waiting_cedula" ∧
    (handle_receipt_conversation envOk [] 2025 "back" "p"
      ⟨some "waiting_cedula", none⟩ "dn").text ≠ WELCOME_MESSAGE := by
  refine ⟨rfl, by decide, rfl, by decide⟩

/-- Claim C1 (amended): from every non-idle dialogue state
(`waiting_cedula`, `waiting_date`, `waiting_receipt_selection`), an
inbound message that, lowercased and trimmed, equals one of the source's
cancel tokens (`cancelar`, `cancel`, `menu`, `menú`, `volver`, `atras`,
`atrás`, `salir`, `0` — not the claim's English glosses `back`/`exit`)
clears `conversation_state` and `conversation_data` and replies with the
full main menu; the check precedes all state-specific parsing, so this
holds whatever the state-specific handler would have done with the
message. -/
theorem C1_cancel_tokens_amended (env : FtpEnv) (db : List PaymentUser)
    (current_year : Nat) (message phone dn : String) (user : WhatsappUser) :
    (user.conversation_state = some "waiting_cedula" ∨
      user.conversation_state = some "waiting_date" ∨
      user.conversation_state = some "waiting_receipt_selection") →
    pyLower (pyStrip message) ∈ cancel_keywords →
    handle_receipt_conversation env db current_year message phone user dn =
      { text := WELCOME_MESSAGE,
        user := { conversation_state := none, conversation_data := none },
        actions := [] } := by
  intro _ hmem
  simp [handle_receipt_conversation, hmem]

/-- Witness for C1 (amended): the uppercase, space-padded accented token
`" MENÚ "` cancels out of `waiting_receipt_selection`, dropping the
stored cedula. -/
theorem C1_cancel_tokens_amended_witness :
    handle_receipt_conversation envOk [] 2025 " MENÚ " "p"
      ⟨some "waiting_receipt_selection", some { cedula := some "123" }⟩ "dn" =
      { text := WELCOME_MESSAGE,
        user := { conversation_state := none, conversation_data := none },
        actions := [] } :=
  C1_cancel_tokens_amended envOk [] 2025 " MENÚ " "p" "dn"
    ⟨some "waiting_receipt_selection", some { cedula := some "123" }⟩
    (Or.inr (Or.inr rfl)) (by decide)

/-- Format validation of the cedula accepts exactly the strings holding
at least one digit (all non-digits are stripped first). -/
theorem validate_cedula_format_iff (message : String) :
    (validate_cedula_format message).1 = true ↔
      message.toList.any Char.isDigit = true := by
  simp only [validate_cedula_format]
  cases hp : pyIsDigitStr (String.mk (message.toList.filter Char.isDigit)) with
  | true =>
    rw [if_neg (by simp : ¬((!true) = true))]
    refine ⟨fun _ => ?_, fun _ => rfl⟩
    simp only [pyIsDigitStr, Bool.and_eq_true, Bool.not_eq_true] at hp
    rcases hf : message.toList.filter Char.isDigit with _ | ⟨c, cs⟩
    · rw [hf] at hp
      exact absurd hp.1 (by simp)
    · have hc : c ∈ message.toList.filter Char.isDigit := by
        rw [hf]; exact List.mem_cons_self _ _
      rw [List.any_eq_true]
      exact ⟨c, (List.mem_filter.mp hc).1, (List.mem_filter.mp hc).2⟩
  | false =>
    rw [if_pos (by rfl : (!false) = true)]
    simp only [Bool.false_eq_true, false_iff]
    intro hany
    rw [List.any_eq_true] at hany
    obtain ⟨c, hc, hcd⟩ := hany
    have hmem : c ∈ message.toList.filter Char.isDigit :=
      List.mem_filter.mpr ⟨hc, hcd⟩
    have hne : message.toList.filter Char.isDigit ≠ [] := by
      intro hnil
      rw [hnil] at hmem
      cases hmem
    have : pyIsDigitStr (String.mk (message.toList.filter Char.isDigit)) = true := by
      simp only [pyIsDigitStr, Bool.and_eq_true]
      constructor
      · simp [List.isEmpty_iff, hne]
        exact ⟨c, hc, hcd⟩
      · rw [List.all_eq_true]
        intro x hx
        exact (List.mem_filter.mp hx).2
    rw [hp] at this
    exact Bool.noConfusion this

/-- Claim C10: at `waiting_cedula` the format validation and the
registry lookup operate on different values — the validator strips
non-digits and accepts any message containing a digit, while the lookup
key and the stored cedula are the raw (already lowercased and trimmed)
message itself, so the lookup can only hit a registry row whose stored
cedula equals that raw string. -/
theorem C10_cedula_raw_lookup (env : FtpEnv) (db : List PaymentUser)
    (current_year : Nat) (message phone dn : String) (data : Option ConvData) :
    ((validate_cedula_format message).1 = true ↔
      message.toList.any Char.isDigit = true) ∧
    (pyLower (pyStrip message) ∉ cancel_keywords →
      message.toList.any Char.isDigit = true →
      (db.find? (fun u => u.cedula == message && u.is_active) = none →
        handle_receipt_conversation env db current_year message phone
          ⟨some "waiting_cedula", data⟩ dn =
          { text := "❌ La cédula " ++ message ++
              " no existe en nuestros registros.\n\nPor favor, ingresa tu número de cédula nuevamente:",
            user := { conversation_state := some "waiting_cedula",
                      conversation_data := none },
            actions := [] }) ∧
      (∀ u, db.find? (fun v => v.cedula == message && v.is_active) = some u →
        handle_receipt_conversation env db current_year message phone
          ⟨some "waiting_cedula", data⟩ dn =
          { text := "¡Hola " ++ u.name ++
              "! ☺️\n\npara continuar, por favor ingresa la\n*fecha de expedición de tu cédula*.\n\nLa fecha debe estar en formato:\n*DD/MM/AAAA*\n\nEjemplo: *15/03/1990*",
            user := { conversation_state := some "waiting_date",
                      conversation_data := some { cedula := some message } },
            actions := [] })) := by
  refine ⟨validate_cedula_format_iff message, ?_⟩
  intro hnc hdig
  have hv : (validate_cedula_format message).1 = true :=
    (validate_cedula_format_iff message).mpr hdig
  have hnv : ¬((!(validate_cedula_format message).1) = true) := by
    rw [hv]
    simp
  constructor
  · intro hfind
    simp only [handle_receipt_conversation]
    rw [if_neg hnc, if_true, if_neg hnv]
    simp [is_cedula_registered, hfind]
  · intro u hfind
    simp only [handle_receipt_conversation]
    rw [if_neg hnc, if_true, if_neg hnv]
    simp [is_cedula_registered, hfind]

/-- Witness for C10: the message `"cc 123456789"` passes format
validation but the lookup key keeps its non-digit prefix: against a
registry holding only the digit-string cedula `123456789`, the engine
answers "not registered" and stays in `waiting_cedula`. -/
theorem C10_cedula_raw_lookup_witness :
    (validate_cedula_format "cc 123456789").1 = true ∧
    handle_receipt_conversation envOk [⟨"123456789", "Ana", 100, true⟩] 2025
      "cc 123456789" "p" ⟨some "waiting_cedula", none⟩ "dn" =
      { text := "❌ La cédula cc 123456789 no existe en nuestros registros.\n\nPor favor, ingresa tu número de cédula nuevamente:",
        user := { conversation_state := some "waiting_cedula",
                  conversation_data := none },
        actions := [] } := by
  have h := C10_cedula_raw_lookup envOk [⟨"123456789", "Ana", 100, true⟩] 2025
    "cc 123456789" "p" "dn" none
  refine ⟨(h.1).mpr (by decide), ?_⟩
  have h2 := (h.2 (by decide) (by decide)).1 (by decide)
  simpa using h2

/-- Directory creation only reads `mkd`: updating the listing primitive
leaves it unchanged. -/
theorem ensureDirsLoop_congr (env : FtpEnv)
    (f' : String → Except PyErr (List String)) :
    ∀ (l : List String) (cur : String),
      ensureDirsLoop { env with nlst := f' } l cur = ensureDirsLoop env l cur := by
  intro l
  induction l with
  | nil => intro cur; rfl
  | cons p ps ih =>
    intro cur
    simp only [ensureDirsLoop]
    rw [show ({ env with nlst := f' } : FtpEnv).mkd = env.mkd from rfl]
    cases hm : env.mkd (cur ++ "/" ++ p) with
    | ok u => simp [ih]
    | error e =>
      cases e with
      | permError m => simp [ih]
      | connError m => simp
      | valueError m => simp
      | otherError m => simp

/-- The find path reads the listing primitive only at the chosen
folder's glob pattern and directory: replacing `nlst` by any function
that agrees on those two strings leaves the search unchanged. -/
theorem find_files_nlst_agree (env : FtpEnv)
    (f' : String → Except PyErr (List String)) (sub c : String)
    (h1 : f' (build_remote_path env sub ++ "/*" ++ c ++ "*.pdf") =
      env.nlst (build_remote_path env sub ++ "/*" ++ c ++ "*.pdf"))
    (h2 : f' (build_remote_path env sub) = env.nlst (build_remote_path env sub)) :
    find_files_by_cedula { env with nlst := f' } sub c =
      find_files_by_cedula env sub c := by
  have e1 : ({ env with nlst := f' } : FtpEnv).nlst = f' := rfl
  have e2 : build_remote_path { env with nlst := f' } sub = build_remote_path env sub :=
    rfl
  have e3 : ftp_connection { env with nlst := f' } = ftp_connection env := rfl
  have e4 : ∀ d, ensure_dirs { env with nlst := f' } d = ensure_dirs env d :=
    fun d => ensureDirsLoop_congr env f' _ _
  simp only [find_files_by_cedula, findFilesFallback, e1, e2, e3, e4, h1, h2]

/-- Corollary of `find_files_nlst_agree` at the receipt-service level. -/
theorem get_receipts_nlst_agree (env : FtpEnv)
    (f' : String → Except PyErr (List String)) (c folder : String)
    (h1 : f' (build_remote_path env folder ++ "/*" ++ c ++ "*.pdf") =
      env.nlst (build_remote_path env folder ++ "/*" ++ c ++ "*.pdf"))
    (h2 : f' (build_remote_path env folder) = env.nlst (build_remote_path env folder)) :
    get_receipts_by_folder { env with nlst := f' } c folder =
      get_receipts_by_folder env c folder := by
  have e5 : ∀ fo s, receiptFilePath { env with nlst := f' } fo s = receiptFilePath env fo s :=
    fun _ _ => rfl
  simp only [get_receipts_by_folder, find_files_nlst_agree env f' folder c h1 h2, e5]

/-- Reduction of the dialogue step at `waiting_receipt_selection` for a
valid choice: the engine consults exactly one `get_receipts_by_folder`
query on the chosen bucket and then the send pipeline. -/
theorem handle_sel_eq (env : FtpEnv) (db : List PaymentUser) (cy : Nat)
    (phone dn c msg : String) (data : ConvData) (hdata : data.cedula = some c)
    (hmsg : msg = "1" ∨ msg = "2") :
    handle_receipt_conversation env db cy msg phone
      ⟨some "waiting_receipt_selection", some data⟩ dn =
      (match get_receipts_by_folder env c (if msg = "2" then "recientes" else "anteriores") with
       | (false, _, _) =>
         { text := if msg = "2" then
             "❌ Aún no tienes comprobantes de la quincena actual. 😓\n\nLos comprobantes se generan después de cada pago de nómina.\n\n" ++
               MENU_RETURN_MESSAGE
           else
             "❌ No tienes comprobantes de la quincena anterior. 😓\n\nLos comprobantes de quincenas anteriores se archivan automáticamente.\n\n" ++
               MENU_RETURN_MESSAGE,
           user := { conversation_state := none, conversation_data := none },
           actions := [] }
       | (true, _, receipts) =>
         let selected_receipt := receipts.headD
           { cedula := c, file_path := "", file_name := "",
             folder := if msg = "2" then "recientes" else "anteriores", total_found := 0 }
         let r := send_selected_receipt env selected_receipt phone
         { text := if r.1 then
             "✅ " ++ r.2.1 ++
               "\n\n¡Espero que esto te ayude! Si necesitas algo más, no dudes en contactarnos.\n\n" ++
               MENU_RETURN_MESSAGE
           else
             "❌ " ++ r.2.1 ++
               "\n\nSi crees que hay un error, por favor contacta directamente a:\n🧾 *Área de Contabilidad:* 310 3367098\n\n" ++
               MENU_RETURN_MESSAGE,
           user := { conversation_state := none, conversation_data := none },
           actions := r.2.2 }) := by
  have hnc : ¬(pyLower (pyStrip msg) ∈ cancel_keywords) := by
    rcases hmsg with h | h <;> subst h <;> decide
  simp only [handle_receipt_conversation]
  rw [if_neg hnc,
    if_neg (show ¬(some "waiting_receipt_selection" = some "waiting_cedula") by simp),
    if_neg (show ¬(some "waiting_receipt_selection" = some "waiting_date") by simp)]
  simp only [if_true, Option.getD]
  rw [if_pos hmsg, hdata]

/-- Claim C4: at `waiting_receipt_selection` only `"1"` (older,
`anteriores`) and `"2"` (recent, `recientes`) are accepted — any other
non-cancel message is re-prompted with no state change; a valid choice
queries only the chosen bucket (the step is insensitive to the listing
primitive outside that bucket's two query strings); an empty bucket
clears the context, returns to idle and reports the bucket-specific
empty message; a match takes the first found file, downloads it through
the repository's download path, sends it as a document, clears the
context and returns to idle. -/
theorem C4_folder_choice_spec (env : FtpEnv) (db : List PaymentUser) (cy : Nat)
    (phone dn c : String) (data : ConvData) (hdata : data.cedula = some c) :
    (∀ msg, pyLower (pyStrip msg) ∉ cancel_keywords → msg ≠ "1" → msg ≠ "2" →
      handle_receipt_conversation env db cy msg phone
        ⟨some "waiting_receipt_selection", some data⟩ dn =
        { text := "❌ Por favor, responde con \x271\x27 para la quincena anterior o \x272\x27 para la quincena reciente.",
          user := ⟨some "waiting_receipt_selection", some data⟩,
          actions := [] }) ∧
    (find_files_by_cedula env "anteriores" c = .ok [] →
      handle_receipt_conversation env db cy "1" phone
        ⟨some "waiting_receipt_selection", some data⟩ dn =
        { text := "❌ No tienes comprobantes de la quincena anterior. 😓\n\nLos comprobantes de quincenas anteriores se archivan automáticamente.\n\n" ++
            MENU_RETURN_MESSAGE,
          user := { conversation_state := none, conversation_data := none },
          actions := [] }) ∧
    (find_files_by_cedula env "recientes" c = .ok [] →
      handle_receipt_conversation env db cy "2" phone
        ⟨some "waiting_receipt_selection", some data⟩ dn =
        { text := "❌ Aún no tienes comprobantes de la quincena actual. 😓\n\nLos comprobantes se generan después de cada pago de nómina.\n\n" ++
            MENU_RETURN_MESSAGE,
          user := { conversation_state := none, conversation_data := none },
          actions := [] }) ∧
    (∀ file rest t, find_files_by_cedula env "anteriores" c = .ok (file :: rest) →
      download_to_temp env (receiptFilePath env "anteriores" file) = some t →
      env.sendDoc phone t file = true →
      handle_receipt_conversation env db cy "1" phone
        ⟨some "waiting_receipt_selection", some data⟩ dn =
        { text := "✅ Comprobante enviado exitosamente\n\n¡Espero que esto te ayude! Si necesitas algo más, no dudes en contactarnos.\n\n" ++
            MENU_RETURN_MESSAGE,
          user := { conversation_state := none, conversation_data := none },
          actions := [Action.sentConfirmation phone,
            Action.downloadedTemp (receiptFilePath env "anteriores" file) t,
            Action.sentDocument phone t file] }) ∧
    (∀ f' : String → Except PyErr (List String),
      f' (build_remote_path env "anteriores" ++ "/*" ++ c ++ "*.pdf") =
        env.nlst (build_remote_path env "anteriores" ++ "/*" ++ c ++ "*.pdf") →
      f' (build_remote_path env "anteriores") = env.nlst (build_remote_path env "anteriores") →
      handle_receipt_conversation { env with nlst := f' } db cy "1" phone
        ⟨some "waiting_receipt_selection", some data⟩ dn =
      handle_receipt_conversation env db cy "1" phone
        ⟨some "waiting_receipt_selection", some data⟩ dn) := by
  have hfold1 : (if ("1" : String) = "2" then "recientes" else "anteriores") = "anteriores" :=
    rfl
  have hfold2 : (if ("2" : String) = "2" then "recientes" else "anteriores") = "recientes" :=
    rfl
  refine ⟨?_, ?_, ?_, ?_, ?_⟩
  · intro msg hnc h1 h2
    simp only [handle_receipt_conversation]
    rw [if_neg hnc,
      if_neg (show ¬(some "waiting_receipt_selection" = some "waiting_cedula") by simp),
      if_neg (show ¬(some "waiting_receipt_selection" = some "waiting_date") by simp)]
    simp only [if_true]
    rw [if_neg (by rintro (h | h); exact h1 h; exact h2 h)]
  · intro hfind
    rw [handle_sel_eq env db cy phone dn c "1" data hdata (Or.inl rfl), hfold1]
    simp only [get_receipts_by_folder]
    rw [if_neg (by simp), hfind]
    rfl
  · intro hfind
    rw [handle_sel_eq env db cy phone dn c "2" data hdata (Or.inr rfl), hfold2]
    simp only [get_receipts_by_folder]
    rw [if_neg (by simp), hfind]
    rfl
  · intro file rest t hfind hdl hsend
    rw [handle_sel_eq env db cy phone dn c "1" data hdata (Or.inl rfl), hfold1]
    simp only [get_receipts_by_folder]
    rw [if_neg (by simp), hfind]
    simp only [List.headD, send_selected_receipt, send_receipt_pdf_from_data, hdl, hsend]
    simp
  · intro f' h1 h2
    rw [handle_sel_eq { env with nlst := f' } db cy phone dn c "1" data hdata (Or.inl rfl),
      handle_sel_eq env db cy phone dn c "1" data hdata (Or.inl rfl), hfold1]
    rw [get_receipts_nlst_agree env f' c "anteriores" h1 h2]
    cases hg : get_receipts_by_folder env c "anteriores" with
    | mk b p =>
      obtain ⟨m, receipts⟩ := p
      cases b
      · rfl
      · rfl

/-- Witness for C4: with a listing that finds `0001_123456789.pdf` in
the chosen bucket, the reply "1" downloads and sends that document and
resets the conversation. -/
theorem C4_folder_choice_witness :
    handle_receipt_conversation
      { envOk with nlst := fun _ => Except.ok ["0001_123456789.pdf"] } [] 2025 "1" "p"
      ⟨some "waiting_receipt_selection", some { cedula := some "123456789" }⟩ "dn" =
      { text := "✅ Comprobante enviado exitosamente\n\n¡Espero que esto te ayude! Si necesitas algo más, no dudes en contactarnos.\n\n" ++
          MENU_RETURN_MESSAGE,
        user := { conversation_state := none, conversation_data := none },
        actions := [Action.sentConfirmation "p",
          Action.downloadedTemp "/anteriores/0001_123456789.pdf" "/tmp/tmpfile.pdf",
          Action.sentDocument "p" "/tmp/tmpfile.pdf" "0001_123456789.pdf"] } := by
  have h := (C4_folder_choice_spec
    { envOk with nlst := fun _ => Except.ok ["0001_123456789.pdf"] } [] 2025 "p" "dn"
    "123456789" { cedula := some "123456789" } rfl).2.2.2.1
    "0001_123456789.pdf" [] "/tmp/tmpfile.pdf" (by rfl) (by rfl) (by rfl)
  simpa using h

end Agrojurado
